import Mathlib

/-!
Verification development for the AI-First maturity assessment framework.

The definitions below are a shallow embedding of the Python source:

* `app/utils/scoring_utils.py` — weighted averages, coverage, maturity
  classification;
* `app/utils/recommendation_utils.py` — recommendation templates, priority,
  type classification, ranking;
* `app/services/scoring_service.py` — the score aggregator;
* `app/services/recommendation_service.py` — the recommendation selector;
* `app/services/assessment_service.py` — response submission and assessment
  completion.

Modelling conventions:

* Python floats are modelled as exact rationals (`ℚ`); every constant involved
  (0.4, 1.8, 2.5, 3.3, …) is a small decimal, and the compared quantities in
  the verified properties are exact, so no threshold comparison depends on
  binary floating-point rounding.  `round(x, n)` is modelled as exact rational
  rounding.
* Functions that `raise` in Python return `Except String` (internal errors)
  or `Except AppError` (service level errors); a `try/except` that swallows an
  error is modelled by a `match` on the `Except` value.
* The SQLAlchemy session is modelled as an explicit `DbState` record; a commit
  returns the updated state, and an error result means the session was rolled
  back, i.e. the caller keeps the pre-call state.
* Presentation-only string formatting (`format_score_display`,
  `get_maturity_level_details`, the `score_display` fields) and the
  `extract_recommendation_tags` helper (whose output order comes from an
  unspecified Python `set` iteration order and is never read back by the
  pipeline) are not modelled.
-/

/-- String lowering used by the Python `str.lower()` calls (keyword matching
and key normalisation operate on ASCII template text). -/
def pyLower (s : String) : String := ⟨s.data.map Char.toLower⟩

/-- `name.lower().replace(' ', '_')` — the section-key normalisation used
throughout the services. -/
def normalizeSectionKey (s : String) : String :=
  ⟨s.data.map (fun c => if c = ' ' then '_' else c.toLower)⟩

/-- Python's `kw in text` substring test. -/
def containsKw (text kw : String) : Bool := decide (kw.data <:+: text.data)

/-- Python `round(x, 2)` on the exact rational model. -/
def round2 (x : ℚ) : ℚ := (round (x * 100) : ℚ) / 100

/-- Python `round(x, 1)` on the exact rational model. -/
def round1 (x : ℚ) : ℚ := (round (x * 10) : ℚ) / 10

/-- Association-list lookup modelling Python `dict.get(key, default)`. -/
def dictGetD {β : Type} (l : List (String × β)) (key : String) (dflt : β) : β :=
  match l.find? (fun p => p.1 = key) with
  | some p => p.2
  | none => dflt

/-- Association-list lookup modelling Python `dict.get(key)` / `dict[key]`
with a missing key reported as `none`. -/
def dictGet? {β : Type} (l : List (String × β)) (key : String) : Option β :=
  (l.find? (fun p => p.1 = key)).map (·.2)

/-! ### `app/utils/scoring_utils.py` -/

/-- `MaturityLevel` enum. -/
inductive MaturityLevel
  | TRADITIONAL
  | ASSISTED
  | AUGMENTED
  | FIRST
deriving DecidableEq, Repr

/-- `MaturityLevel.value` strings. -/
def MaturityLevel.value : MaturityLevel → String
  | .TRADITIONAL => "Traditional Development"
  | .ASSISTED => "AI-Assisted Development"
  | .AUGMENTED => "AI-Augmented Development"
  | .FIRST => "AI-First Development"

/-- `MaturityLevel.name` strings (Python enum member names). -/
def MaturityLevel.pyName : MaturityLevel → String
  | .TRADITIONAL => "TRADITIONAL"
  | .ASSISTED => "ASSISTED"
  | .AUGMENTED => "AUGMENTED"
  | .FIRST => "FIRST"

/-- `ScoringConstants.MIN_SCORE`. -/
def MIN_SCORE : ℚ := 1.0

/-- `ScoringConstants.MAX_SCORE`. -/
def MAX_SCORE : ℚ := 4.0

/-- `ScoringConstants.MATURITY_THRESHOLDS` (lower and upper bound per band). -/
def MATURITY_THRESHOLDS : MaturityLevel → ℚ × ℚ
  | .TRADITIONAL => (1.0, 1.8)
  | .ASSISTED => (1.8, 2.5)
  | .AUGMENTED => (2.5, 3.3)
  | .FIRST => (3.3, 4.0)

/-- `ScoringConstants.SECTION_WEIGHTS` as an association list. -/
def SECTION_WEIGHTS : List (String × ℚ) :=
  [("foundational_capabilities", 0.25),
   ("transformation_capabilities", 0.25),
   ("enterprise_integration", 0.25),
   ("strategic_governance", 0.25)]

/-- `calculate_weighted_average(scores, weights=None)`; `none` for the
`weights` argument models the omitted default. -/
def calculate_weighted_average (scores : List ℚ) (weights? : Option (List ℚ)) :
    Except String ℚ :=
  if scores = [] then
    .error "Cannot calculate average of empty scores list"
  else
    let weights := weights?.getD (List.replicate scores.length 1.0)
    if scores.length ≠ weights.length then
      .error "Scores and weights must have the same length"
    else
      let weighted_sum := (List.zipWith (fun s w => s * w) scores weights).sum
      let total_weight := weights.sum
      if total_weight = 0 then .error "Total weight cannot be zero"
      else .ok (weighted_sum / total_weight)

/-- `classify_maturity_level(deviq_score)`; the non-numeric `ValueError`
branch is unreachable under the typed embedding.  Returns the enum member and
its display value, like the source. -/
def classify_maturity_level (deviq_score : ℚ) : MaturityLevel × String :=
  let s := max MIN_SCORE (min MAX_SCORE deviq_score)
  if s ≥ (MATURITY_THRESHOLDS .FIRST).1 then
    (.FIRST, MaturityLevel.value .FIRST)
  else if s ≥ (MATURITY_THRESHOLDS .AUGMENTED).1 then
    (.AUGMENTED, MaturityLevel.value .AUGMENTED)
  else if s ≥ (MATURITY_THRESHOLDS .ASSISTED).1 then
    (.ASSISTED, MaturityLevel.value .ASSISTED)
  else
    (.TRADITIONAL, MaturityLevel.value .TRADITIONAL)

/-- `calculate_section_coverage(responses_count, total_questions)`. -/
def calculate_section_coverage (responses_count total_questions : ℕ) : ℚ :=
  if total_questions ≤ 0 then 0.0
  else min 1.0 (max 0.0 ((responses_count : ℚ) / (total_questions : ℚ)))

/-- `validate_score_inputs(scores, weights=None)`; returns `()` for the
Python `True`, or the raised `ValueError` message. -/
def validate_score_inputs (scores : List ℚ) (weights? : Option (List ℚ)) :
    Except String Unit :=
  if scores = [] then .error "Scores list cannot be empty"
  else if ¬ scores.all (fun s => MIN_SCORE ≤ s ∧ s ≤ MAX_SCORE) then
    .error "All scores must be between 1.0 and 4.0"
  else
    match weights? with
    | none => .ok ()
    | some weights =>
      if weights.length ≠ scores.length then
        .error "Weights list must match scores list length"
      else if ¬ weights.all (fun w => 0 ≤ w) then
        .error "All weights must be non-negative"
      else if weights.sum = 0 then .error "Sum of weights cannot be zero"
      else .ok ()

/-! ### `app/utils/recommendation_utils.py` -/

/-- `RecommendationType` enum. -/
inductive RecommendationType
  | QUICK_WIN
  | FOUNDATIONAL
  | STRATEGIC
  | TRANSFORMATIONAL
deriving DecidableEq, Repr

/-- `RecommendationType.value` strings. -/
def RecommendationType.value : RecommendationType → String
  | .QUICK_WIN => "quick_win"
  | .FOUNDATIONAL => "foundational"
  | .STRATEGIC => "strategic"
  | .TRANSFORMATIONAL => "transformational"

/-- `RecommendationPriority` enum. -/
inductive RecommendationPriority
  | HIGH
  | MEDIUM
  | LOW
deriving DecidableEq, Repr

/-- `RecommendationPriority.value` strings. -/
def RecommendationPriority.value : RecommendationPriority → String
  | .HIGH => "high"
  | .MEDIUM => "medium"
  | .LOW => "low"

/-- `ImpactLevel` enum. -/
inductive ImpactLevel
  | HIGH
  | MEDIUM
  | LOW
deriving DecidableEq, Repr

/-- `ImpactLevel.value` strings. -/
def ImpactLevel.value : ImpactLevel → String
  | .HIGH => "high"
  | .MEDIUM => "medium"
  | .LOW => "low"

/-- `FeasibilityLevel` enum. -/
inductive FeasibilityLevel
  | HIGH
  | MEDIUM
  | LOW
deriving DecidableEq, Repr

/-- `FeasibilityLevel.value` strings. -/
def FeasibilityLevel.value : FeasibilityLevel → String
  | .HIGH => "high"
  | .MEDIUM => "medium"
  | .LOW => "low"

/-- The recommendation-template dictionary shape
`{"recommendations": {"level_transitions": {key: {section_key: [text]}}}}`,
with the nested dicts as association lists. -/
structure RecTemplates where
  level_transitions : List (String × List (String × List String))
deriving DecidableEq, Repr

/-- `get_default_recommendations()` — the hardcoded fallback template set. -/
def get_default_recommendations : RecTemplates :=
  ⟨[("1_to_2",
     [("foundational_capabilities",
       ["Deploy basic AI assistants like GitHub Copilot for individual developers",
        "Conduct AI literacy training with prompt engineering basics",
        "Begin using AI for code completion and documentation",
        "Establish AI tool usage guidelines and best practices"]),
      ("transformation_capabilities",
       ["Experiment with AI-assisted requirement analysis",
        "Begin AI-assisted test case generation for unit tests",
        "Add AI insights to CI/CD pipelines for build analysis",
        "Use AI for legacy system documentation"]),
      ("enterprise_integration",
       ["Assess current AI tool costs and usage patterns",
        "Standardize AI tools across small teams",
        "Create inventory of systems for AI integration",
        "Establish data classification for AI usage"]),
      ("strategic_governance",
       ["Create initial AI ethics awareness and guidelines",
        "Track AI tool usage and developer satisfaction",
        "Develop policies for AI-generated code IP concerns",
        "Monitor AI-related risks with basic oversight"])]),
    ("2_to_3",
     [("foundational_capabilities",
       ["Scale to team-wide adoption with standardized toolchain",
        "Implement structured AI training programs",
        "Establish systematic AI code review processes",
        "Deploy automated documentation generation"]),
      ("transformation_capabilities",
       ["Build AI systems for architecture proposal generation",
        "Implement comprehensive AI-driven testing (50-85%)",
        "Create intelligent CI/CD pipelines with optimization",
        "Develop AI-powered migration planning"]),
      ("enterprise_integration",
       ["Implement enterprise-wide AI tool standards",
        "Deploy automated enterprise system integration",
        "Establish automated cost tracking and optimization",
        "Create systematic data governance framework"]),
      ("strategic_governance",
       ["Establish comprehensive AI ethics framework",
        "Implement comprehensive productivity metrics",
        "Create structured change management programs",
        "Develop systematic compliance management"])]),
    ("3_to_4",
     [("foundational_capabilities",
       ["Achieve enterprise-grade AI platform integration",
        "Develop advanced AI expertise across teams",
        "Implement AI-first development workflows",
        "Create intelligent knowledge systems"]),
      ("transformation_capabilities",
       ["Deploy automated intent-to-architecture pipelines",
        "Achieve fully autonomous testing (85%+)",
        "Implement autonomous CI/CD with self-healing",
        "Complete autonomous legacy transformation"]),
      ("enterprise_integration",
       ["Establish strategic AI vendor partnerships",
        "Achieve seamless AI-powered integrations",
        "Implement advanced cost optimization models",
        "Deploy advanced resilience systems"]),
      ("strategic_governance",
       ["Implement automated ethics compliance monitoring",
        "Deploy advanced analytics with predictive modeling",
        "Achieve seamless multi-agent collaboration",
        "Lead strategic innovation programs"])])]⟩

/-- `get_maturity_transition_key(current_level, target_level)`. -/
def get_maturity_transition_key (current_level target_level : ℕ) : String :=
  toString current_level ++ "_to_" ++ toString target_level

/-- `impact_scores[impact]` matrix inside `calculate_recommendation_priority`. -/
def impact_points : ImpactLevel → ℚ
  | .HIGH => 3
  | .MEDIUM => 2
  | .LOW => 1

/-- `feasibility_scores[feasibility]` matrix inside
`calculate_recommendation_priority`. -/
def feasibility_points : FeasibilityLevel → ℚ
  | .HIGH => 3
  | .MEDIUM => 2
  | .LOW => 1

/-- `calculate_recommendation_priority(impact, feasibility, current_score,
section_weight=1.0)`. -/
def calculate_recommendation_priority (impact : ImpactLevel)
    (feasibility : FeasibilityLevel) (current_score : ℚ)
    (section_weight : ℚ) : RecommendationPriority :=
  let impact_score := impact_points impact
  let feasibility_score := feasibility_points feasibility
  let score_urgency := (4.0 - current_score) / 3.0
  let priority_score :=
    (impact_score * 0.4 + feasibility_score * 0.4 + score_urgency * 0.2) *
      section_weight
  if priority_score ≥ 2.5 then .HIGH
  else if priority_score ≥ 1.5 then .MEDIUM
  else .LOW

/-- `quick_win_keywords` list from `classify_recommendation_type`. -/
def quick_win_keywords : List String :=
  ["basic", "simple", "start", "begin", "deploy", "use", "add",
   "experiment", "introduce", "initial", "2-hour", "workshop"]

/-- `foundational_keywords` list from `classify_recommendation_type`. -/
def foundational_keywords : List String :=
  ["establish", "create", "implement", "systematic", "framework",
   "training", "standardize", "governance", "policy", "process"]

/-- `strategic_keywords` list from `classify_recommendation_type`. -/
def strategic_keywords : List String :=
  ["enterprise", "organization", "strategic", "comprehensive",
   "roadmap", "transformation", "culture", "leadership"]

/-- `transformational_keywords` list from `classify_recommendation_type`. -/
def transformational_keywords : List String :=
  ["autonomous", "automated", "ai-first", "intelligent", "advanced",
   "revolutionary", "paradigm", "reimagine", "reinvent"]

/-- `sum(1 for keyword in keywords if keyword in text_lower)`. -/
def keyword_count (text_lower : String) (keywords : List String) : ℕ :=
  (keywords.filter (fun k => containsKw text_lower k)).length

/-- `classify_recommendation_type(recommendation_text, impact, feasibility,
implementation_time=None)`; the `implementation_time` argument is accepted and
ignored exactly as in the source. -/
def classify_recommendation_type (recommendation_text : String)
    (impact : ImpactLevel) (feasibility : FeasibilityLevel)
    (implementation_time : Option String) : RecommendationType :=
  let _ := implementation_time
  let text_lower := pyLower recommendation_text
  let quick_win_count := keyword_count text_lower quick_win_keywords
  let strategic_count := keyword_count text_lower strategic_keywords
  let foundational_count := keyword_count text_lower foundational_keywords
  let transformational_count :=
    keyword_count text_lower transformational_keywords
  if feasibility = .HIGH ∧ (impact = .LOW ∨ impact = .MEDIUM) ∧
      quick_win_count > 0 then
    .QUICK_WIN
  else if transformational_count > 0 ∨ impact = .HIGH then
    .TRANSFORMATIONAL
  else if strategic_count > 0 ∨ containsKw text_lower "enterprise" then
    .STRATEGIC
  else if foundational_count > 0 then
    .FOUNDATIONAL
  else if feasibility = .HIGH then .QUICK_WIN
  else if impact = .HIGH then .TRANSFORMATIONAL
  else .FOUNDATIONAL

/-- Effort estimate dictionary from `estimate_implementation_effort`. -/
structure EffortEstimate where
  time_weeks : ℤ
  resources_needed : ℤ
  complexity : String
  risk : String
  section_complexity_factor : ℚ
deriving DecidableEq, Repr

/-- `estimate_implementation_effort(recommendation_type, section_complexity)`;
Python `int()` truncation is `Int.floor` here since all operands are
non-negative. -/
def estimate_implementation_effort (t : RecommendationType)
    (section_complexity : ℚ) : EffortEstimate :=
  let base : ℤ × ℤ × String × String :=
    match t with
    | .QUICK_WIN => (2, 1, "Low", "Low")
    | .FOUNDATIONAL => (8, 3, "Medium", "Medium")
    | .STRATEGIC => (16, 5, "High", "Medium")
    | .TRANSFORMATIONAL => (24, 8, "Very High", "High")
  { time_weeks := ⌊(base.1 : ℚ) * section_complexity⌋
    resources_needed := ⌊(base.2.1 : ℚ) * section_complexity⌋
    complexity := base.2.2.1
    risk := base.2.2.2
    section_complexity_factor := section_complexity }

/-- The recommendation dictionary flowing through the pipeline.  Keys that may
be absent in a bare dict (`priority`, `impact`, `feasibility`, `type`,
`score_improvement`) are `Option`-valued; `rank_recommendations` reads them
with `dict.get(key, default)`.  The remaining payload keys are carried so the
service-built dictionaries are modelled in full (minus the presentation-only
`tags`). -/
structure RecDict where
  rec_id : String
  text : String
  section_name : String
  section_key : String
  current_level : String
  target_level : String
  rtype : Option String
  priority : Option String
  impact : Option String
  feasibility : Option String
  current_score : ℚ
  target_score : ℚ
  score_improvement : Option ℚ
  effort_estimate : Option EffortEstimate
deriving DecidableEq, Repr

/-- A `RecDict` with every key absent / empty, for building test dicts. -/
def RecDict.empty : RecDict :=
  ⟨"", "", "", "", "", "", none, none, none, none, 0, 0, none, none⟩

/-- Metadata produced by `generate_recommendation_metadata` (the keys it adds
on top of the service payload). -/
structure RecMetadata where
  rtype : RecommendationType
  priority : RecommendationPriority
  impact : ImpactLevel
  feasibility : FeasibilityLevel
  section_name : String
  current_score : ℚ
  target_score : ℚ
  score_improvement : ℚ
  effort_estimate : EffortEstimate
deriving DecidableEq, Repr

/-- `generate_recommendation_metadata(recommendation_text, section_name,
current_score, target_score)` (minus the `tags` key, see the header note). -/
def generate_recommendation_metadata (recommendation_text section_name : String)
    (current_score target_score : ℚ) : RecMetadata :=
  let text_lower := pyLower recommendation_text
  let impact0 : ImpactLevel := .MEDIUM
  let feasibility0 : FeasibilityLevel := .MEDIUM
  let impact1 := if containsKw text_lower "comprehensive" then .HIGH else impact0
  let impact2 := if containsKw text_lower "autonomous" then .HIGH else impact1
  let feasibility2 :=
    if containsKw text_lower "autonomous" then .LOW else feasibility0
  let feasibility3 :=
    if containsKw text_lower "basic" then .HIGH else feasibility2
  let feasibility4 :=
    if containsKw text_lower "experiment" then .HIGH else feasibility3
  let impact4 := if containsKw text_lower "experiment" then .LOW else impact2
  let rec_type :=
    classify_recommendation_type recommendation_text impact4 feasibility4 none
  let priority :=
    calculate_recommendation_priority impact4 feasibility4 current_score 1.0
  let section_complexity := max 0.5 (min 2.0 ((4.0 - current_score) / 2.0))
  let effort := estimate_implementation_effort rec_type section_complexity
  { rtype := rec_type
    priority := priority
    impact := impact4
    feasibility := feasibility4
    section_name := section_name
    current_score := current_score
    target_score := target_score
    score_improvement := target_score - current_score
    effort_estimate := effort }

/-- `priority_score(rec)` — the composite ranking key inside
`rank_recommendations`, including the `dict.get` defaults. -/
def rank_priority_score (rec : RecDict) : ℚ :=
  let level_points : String → ℚ := fun s =>
    if s = "high" then 3 else if s = "medium" then 2
    else if s = "low" then 1 else 2
  let priority := level_points (rec.priority.getD "medium")
  let impact := level_points (rec.impact.getD "medium")
  let feasibility := level_points (rec.feasibility.getD "medium")
  let score_improvement := rec.score_improvement.getD 0
  priority * 0.4 + impact * 0.3 + feasibility * 0.2 + score_improvement * 0.1

/-- `rank_recommendations(recommendations)` — Python's stable `sorted(...,
key=priority_score, reverse=True)`, modelled by a stable insertion sort on the
"key not below" relation. -/
def rank_recommendations (recommendations : List RecDict) : List RecDict :=
  List.insertionSort
    (fun a b => rank_priority_score b ≤ rank_priority_score a) recommendations

/-- `get_next_level_recommendations(current_level)`. -/
def get_next_level_recommendations (current_level : ℕ) : ℕ :=
  min 4 (current_level + 1)

/-! ### Database rows and session state

`app/models/`: the three-level Section/Area/Question taxonomy, Response rows
(one per assessment/question pair, integer score, `score` read through an
`is not None` check), and Assessment rows.  The SQLAlchemy session is the
explicit `DbState`. -/

/-- A `sections` row (presentation columns omitted). -/
structure SectionRow where
  sec_id : ℕ
  name : String
  display_order : ℤ
deriving DecidableEq, Repr

/-- An `areas` row. -/
structure AreaRow where
  area_id : ℕ
  section_id : ℕ
  name : String
  display_order : ℤ
deriving DecidableEq, Repr

/-- A `questions` row (the active `Question` model exposes no answer-option
accessor — see `validate_response`). -/
structure QuestionRow where
  q_id : ℕ
  area_id : ℕ
  display_order : ℤ
deriving DecidableEq, Repr

/-- A `responses` row; `score` is read through `response.score is not None`,
hence `Option`. -/
structure ResponseRow where
  resp_id : ℕ
  assessment_id : ℕ
  question_id : ℕ
  score : Option ℤ
deriving DecidableEq, Repr

/-- An `assessments` row; `has_cached_scores` models
`'deviq_score' in assessment.metadata`. -/
structure AssessmentRow where
  a_id : ℕ
  status : String
  deviq_score : Option ℚ
  has_cached_scores : Bool
deriving DecidableEq, Repr

/-- The database state seen by one service call. -/
structure DbState where
  sections : List SectionRow
  areas : List AreaRow
  questions : List QuestionRow
  responses : List ResponseRow
  assessments : List AssessmentRow
deriving DecidableEq, Repr

/-- `session.query(Assessment).filter_by(id=assessment_id).first()`. -/
def find_assessment (st : DbState) (assessment_id : ℕ) : Option AssessmentRow :=
  st.assessments.find? (fun a => a.a_id = assessment_id)

/-- `session.query(Response).filter_by(assessment_id=..., question_id=...)
.first()`. -/
def find_response (st : DbState) (assessment_id question_id : ℕ) :
    Option ResponseRow :=
  st.responses.find?
    (fun r => r.assessment_id = assessment_id ∧ r.question_id = question_id)

/-- Rows ordered by an `order_by(display_order)` query. -/
def order_by_display {α : Type} (key : α → ℤ) (rows : List α) : List α :=
  List.insertionSort (fun a b => key a ≤ key b) rows

/-! ### `app/services/scoring_service.py` (`ScoringService`) -/

/-- The dictionary returned by `ScoringService._calculate_area_score`. -/
structure AreaScoreData where
  score : ℚ
  weight : ℚ
  responses_count : ℕ
  total_questions : ℕ
  coverage : ℚ
deriving DecidableEq, Repr

/-- The questions of one area, in query order. -/
def area_questions (st : DbState) (area_id : ℕ) : List QuestionRow :=
  order_by_display (fun q => q.display_order)
    (st.questions.filter (fun q => q.area_id = area_id))

/-- The `question_scores` list built by `_calculate_area_score`: clamped
scores of the answered questions of the area, in question order; unanswered
questions contribute nothing. -/
def answered_question_scores (st : DbState) (assessment_id area_id : ℕ) :
    List ℚ :=
  (area_questions st area_id).filterMap
    (fun q =>
      (find_response st assessment_id q.q_id).bind
        (fun r => r.score.map (fun s => max 1.0 (min 4.0 (s : ℚ)))))

/-- `ScoringService._calculate_area_score(assessment_id, area_id)`. -/
def calculate_area_score (st : DbState) (assessment_id area_id : ℕ) :
    Except String AreaScoreData :=
  let questions := area_questions st area_id
  if questions = [] then
    .ok ⟨MIN_SCORE, 1.0, 0, 0, 0.0⟩
  else
    let question_scores := answered_question_scores st assessment_id area_id
    let question_weights := List.replicate question_scores.length (1.0 : ℚ)
    let responses_count := question_scores.length
    let coverage := calculate_section_coverage responses_count questions.length
    if question_scores ≠ [] then do
      _ ← validate_score_inputs question_scores (some question_weights)
      let area_score ← calculate_weighted_average question_scores
        (some question_weights)
      pure ⟨area_score, 1.0, responses_count, questions.length, coverage⟩
    else
      .ok ⟨MIN_SCORE, 1.0, 0, questions.length, coverage⟩

/-- One entry of the `area_scores` dictionary built by
`_calculate_single_section_score`. -/
structure AreaDetailEntry where
  area_id : ℕ
  area_name : String
  score : ℚ
  weight : ℚ
  responses_count : ℕ
  total_questions : ℕ
  coverage : ℚ
deriving DecidableEq, Repr

/-- The dictionary returned by
`ScoringService._calculate_single_section_score`. -/
structure SectionScoreRaw where
  score : ℚ
  area_scores : List (String × AreaDetailEntry)
  coverage : ℚ
  responses_count : ℕ
  total_questions : ℕ
deriving DecidableEq, Repr

/-- `ScoringService._calculate_single_section_score(assessment_id,
section_id)`. -/
def calculate_single_section_score (st : DbState)
    (assessment_id section_id : ℕ) : Except String SectionScoreRaw :=
  let areas := order_by_display (fun a => a.display_order)
    (st.areas.filter (fun a => a.section_id = section_id))
  if areas = [] then
    .ok ⟨MIN_SCORE, [], 0.0, 0, 0⟩
  else do
    let area_results ← areas.mapM
      (fun area => (calculate_area_score st assessment_id area.area_id).map
        (fun d => (area, d)))
    let area_scores := area_results.map (fun p => p.2.score)
    let area_weights := area_results.map (fun p => p.2.weight)
    let area_details := area_results.map
      (fun p => (normalizeSectionKey p.1.name,
        AreaDetailEntry.mk p.1.area_id p.1.name p.2.score p.2.weight
          p.2.responses_count p.2.total_questions p.2.coverage))
    let total_responses := (area_results.map (fun p => p.2.responses_count)).sum
    let total_questions := (area_results.map (fun p => p.2.total_questions)).sum
    if area_scores ≠ [] then do
      _ ← validate_score_inputs area_scores (some area_weights)
      let section_score ← calculate_weighted_average area_scores (some area_weights)
      pure ⟨section_score, area_details,
        calculate_section_coverage total_responses total_questions,
        total_responses, total_questions⟩
    else
      pure ⟨MIN_SCORE, area_details,
        calculate_section_coverage total_responses total_questions,
        total_responses, total_questions⟩

/-- One entry of the `section_scores` dictionary built by
`_calculate_section_scores`; `error_msg` models the extra `error` key of the
per-section fallback branch (presentation-only `score_display` omitted). -/
structure SectionEntry where
  section_id : ℕ
  section_name : String
  score : ℚ
  area_scores : List (String × AreaDetailEntry)
  coverage : ℚ
  responses_count : ℕ
  total_questions : ℕ
  error_msg : Option String
deriving DecidableEq, Repr

/-- `ScoringService._calculate_section_scores(assessment_id)`; the per-section
`try/except` turns an error into the `MIN_SCORE` fallback entry.  (A Python
dict keyed by section name would overwrite duplicate names; the association
list keeps both entries, which is equivalent for distinct section names.) -/
def calculate_section_scores (st : DbState) (assessment_id : ℕ) :
    List (String × SectionEntry) :=
  (order_by_display (fun s => s.display_order) st.sections).map
    (fun sec =>
      match calculate_single_section_score st assessment_id sec.sec_id with
      | .ok d =>
        (normalizeSectionKey sec.name,
         SectionEntry.mk sec.sec_id sec.name d.score d.area_scores d.coverage
           d.responses_count d.total_questions none)
      | .error e =>
        (normalizeSectionKey sec.name,
         SectionEntry.mk sec.sec_id sec.name MIN_SCORE [] 0.0 0 0 (some e)))

/-- `ScoringService._calculate_deviq_score(section_scores)`; every modelled
entry carries a score (the `'score' in section_data` guard is always true). -/
def calculate_deviq_score (section_scores : List (String × SectionEntry)) :
    Except String ℚ :=
  if section_scores = [] then .ok MIN_SCORE
  else
    let scores := section_scores.map (fun p => p.2.score)
    let weights := section_scores.map (fun p => dictGetD SECTION_WEIGHTS p.1 0.25)
    if scores = [] then .ok MIN_SCORE
    else do
      _ ← validate_score_inputs scores (some weights)
      let deviq_score ← calculate_weighted_average scores (some weights)
      pure (round2 (max MIN_SCORE (min MAX_SCORE deviq_score)))

/-- The dictionary returned by `ScoringService._calculate_completion_status`;
the stored percentage is rounded to one decimal, while the two flags compare
the unrounded value, exactly as in the source. -/
structure CompletionStatus where
  total_questions : ℕ
  answered_questions : ℕ
  skipped_questions : ℕ
  unanswered_questions : ℤ
  completion_percentage : ℚ
  is_complete : Bool
  is_substantial : Bool
deriving DecidableEq, Repr

/-- `ScoringService._calculate_completion_status(assessment_id)`. -/
def calculate_completion_status (st : DbState) (assessment_id : ℕ) :
    CompletionStatus :=
  let answered_questions :=
    (st.responses.filter
      (fun r => r.assessment_id = assessment_id ∧ r.score ≠ none)).length
  let total_questions := st.questions.length
  let completion_percentage :=
    if total_questions > 0 then
      (answered_questions : ℚ) / (total_questions : ℚ) * 100
    else 0
  { total_questions := total_questions
    answered_questions := answered_questions
    skipped_questions := 0
    unanswered_questions := (total_questions : ℤ) - (answered_questions : ℤ)
    completion_percentage := round1 completion_percentage
    is_complete := completion_percentage ≥ 100.0
    is_substantial := completion_percentage ≥ 80.0 }

/-- The results dictionary of `ScoringService.calculate_assessment_score`
(presentation fields `maturity_details`, `improvement_potential`,
`scoring_metadata` and the display strings omitted). -/
structure ScoreResults where
  assessment_id : ℕ
  deviq_score : ℚ
  maturity_level : String
  maturity_level_display : String
  section_scores : List (String × SectionEntry)
  completion_status : CompletionStatus
deriving DecidableEq, Repr

/-- `ScoringService.calculate_assessment_score(assessment_id)`; raises
(`ValueError`) when the assessment does not exist. -/
def calculate_assessment_score (st : DbState) (assessment_id : ℕ) :
    Except String ScoreResults :=
  match find_assessment st assessment_id with
  | none => .error ("Assessment " ++ toString assessment_id ++ " not found")
  | some _ => do
    let section_scores := calculate_section_scores st assessment_id
    let deviq_score ← calculate_deviq_score section_scores
    let classified := classify_maturity_level deviq_score
    pure
      { assessment_id := assessment_id
        deviq_score := deviq_score
        maturity_level := classified.1.pyName
        maturity_level_display := classified.2
        section_scores := section_scores
        completion_status := calculate_completion_status st assessment_id }

/-! ### `app/services/recommendation_service.py` (`RecommendationService`) -/

/-- `RecommendationService._maturity_level_to_number(level)`. -/
def maturity_level_to_number (level : MaturityLevel) : ℕ :=
  match level with
  | .TRADITIONAL => 1
  | .ASSISTED => 2
  | .AUGMENTED => 3
  | .FIRST => 4

/-- `RecommendationService._number_to_maturity_level(number)` (default
`TRADITIONAL`). -/
def number_to_maturity_level (number : ℕ) : MaturityLevel :=
  match number with
  | 1 => .TRADITIONAL
  | 2 => .ASSISTED
  | 3 => .AUGMENTED
  | 4 => .FIRST
  | _ => .TRADITIONAL

/-- `RecommendationService._generate_section_recommendations(section_data,
overall_deviq)`; the service's loaded template set is passed explicitly
(`load_recommendation_templates` falls back to `get_default_recommendations`
when the seed file is missing or unreadable).  The surrounding `try/except`
never fires: every step of the loop is total. -/
def generate_section_recommendations (templates : RecTemplates)
    (section_data : SectionEntry) (overall_deviq : ℚ) : List RecDict :=
  let section_name := section_data.section_name
  let current_score := section_data.score
  let section_key := normalizeSectionKey section_name
  let current_level := (classify_maturity_level current_score).1
  let _overall_level := (classify_maturity_level overall_deviq).1
  let target_level_num :=
    get_next_level_recommendations (maturity_level_to_number current_level)
  let transition_key :=
    get_maturity_transition_key (maturity_level_to_number current_level)
      target_level_num
  let section_templates :=
    dictGetD (dictGetD templates.level_transitions transition_key [])
      section_key []
  let target_score := min MAX_SCORE (current_score + 0.8)
  section_templates.enum.map
    (fun p =>
      let m := generate_recommendation_metadata p.2 section_name current_score
        target_score
      { rec_id := section_key ++ "_" ++ toString (p.1 + 1)
        text := p.2
        section_name := section_name
        section_key := section_key
        current_level := current_level.pyName
        target_level := (number_to_maturity_level target_level_num).pyName
        rtype := some m.rtype.value
        priority := some m.priority.value
        impact := some m.impact.value
        feasibility := some m.feasibility.value
        current_score := m.current_score
        target_score := m.target_score
        score_improvement := some m.score_improvement
        effort_estimate := some m.effort_estimate })

/-- The results of `generate_assessment_recommendations` (the presentation
`by_type` buckets, summary and roadmap dictionaries omitted). -/
structure RecResults where
  assessment_id : ℕ
  deviq_score : ℚ
  maturity_level : String
  total_recommendations : ℕ
  all_recommendations : List RecDict
  by_section : List (String × List RecDict)
deriving DecidableEq, Repr

/-- `RecommendationService.generate_assessment_recommendations(assessment_id,
max_recommendations=20, include_types=None)`. -/
def generate_assessment_recommendations (templates : RecTemplates)
    (st : DbState) (assessment_id : ℕ) (max_recommendations : ℕ)
    (include_types : Option (List String)) : Except String RecResults :=
  match find_assessment st assessment_id with
  | none => .error ("Assessment " ++ toString assessment_id ++ " not found")
  | some _ => do
    let score_results ← calculate_assessment_score st assessment_id
    let by_section := score_results.section_scores.map
      (fun p =>
        (p.1,
         generate_section_recommendations templates p.2
           score_results.deviq_score))
    let all_recommendations := (by_section.map (fun p => p.2)).flatten
    let filtered :=
      match include_types with
      | none => all_recommendations
      | some ts =>
        all_recommendations.filter
          (fun r => match r.rtype with
            | some t => ts.contains t
            | none => false)
    let ranked := rank_recommendations filtered
    let top := ranked.take max_recommendations
    pure
      { assessment_id := assessment_id
        deviq_score := score_results.deviq_score
        maturity_level := score_results.maturity_level_display
        total_recommendations := top.length
        all_recommendations := top
        by_section := by_section }

/-! ### `app/services/assessment_service.py` (`AssessmentService`) -/

/-- The error taxonomy of `app/utils/exceptions.py` that this service layer
raises. -/
inductive AppError
  | assessment (msg : String)
  | validation (msg : String)
deriving DecidableEq, Repr

/-- `ResponseValidator.validate_response(question, answer_value)` for the
integer answers used at runtime (`Response.score` is an integer column).  The
validator appends "Answer value is required" for a falsy (zero) answer and
"Answer value must be a string" for every non-string, then raises
`ValidationError`, so an integer answer never validates.  (A string answer
would fail just after these checks instead: the active `Question` model does
not define `get_answer_options`, so that call raises `AttributeError`.)  The
validator therefore has no success path. -/
def validate_response (question : QuestionRow) (answer_value : ℤ) :
    Except AppError Unit :=
  let _ := question
  if answer_value = 0 then
    .error (.validation ("Response validation failed: " ++
      "Answer value is required; Answer value must be a string"))
  else
    .error (.validation
      "Response validation failed: Answer value must be a string")

/-- The dictionary returned by
`AssessmentService.get_assessment_progress(assessment_id)` (the
`section_progress` and `last_response_date` entries are presentation data and
omitted).  `responded_questions` counts all Response rows of the assessment;
`is_complete` is `responded_questions >= total_questions`. -/
structure ProgressData where
  assessment_id : ℕ
  total_questions : ℕ
  responded_questions : ℕ
  progress_percentage : ℚ
  is_complete : Bool
  status : String
deriving DecidableEq, Repr

/-- `AssessmentService.get_assessment_progress(assessment_id)`. -/
def get_assessment_progress (st : DbState) (assessment_id : ℕ) :
    Except AppError ProgressData :=
  match find_assessment st assessment_id with
  | none =>
    .error (.assessment ("Assessment " ++ toString assessment_id ++
      " not found"))
  | some a =>
    let total_questions := st.questions.length
    let responded_questions :=
      (st.responses.filter (fun r => r.assessment_id = assessment_id)).length
    let progress_percentage :=
      if total_questions > 0 then
        (responded_questions : ℚ) / (total_questions : ℚ) * 100
      else 0
    .ok
      { assessment_id := assessment_id
        total_questions := total_questions
        responded_questions := responded_questions
        progress_percentage := round1 progress_percentage
        is_complete := responded_questions ≥ total_questions
        status := a.status }

/-- Replace an assessment row in place. -/
def update_assessment (st : DbState) (assessment_id : ℕ)
    (f : AssessmentRow → AssessmentRow) : DbState :=
  { st with assessments :=
      st.assessments.map (fun a => if a.a_id = assessment_id then f a else a) }

/-- Replace a response row in place. -/
def update_response (st : DbState) (resp_id : ℕ)
    (f : ResponseRow → ResponseRow) : DbState :=
  { st with responses :=
      st.responses.map (fun r => if r.resp_id = resp_id then f r else r) }

/-- `AssessmentService.submit_response(assessment_id, question_id,
answer_value, validate_answer=True)`.  An `.ok` result is the committed
state together with the updated Response row; an `.error` result models
raise-plus-rollback, so the caller keeps the pre-call state.  On the
existing-row branch, `existing_response.set_answer(answer_value)` raises
`ValueError` outside 1..4, wrapped into `AssessmentError` by the generic
handler.  On the create branch the source never succeeds:
`Response(assessment_id=…, question_id=…, answer_value=…)` raises
`TypeError` because the Response model has no `answer_value` attribute, so
the generic handler wraps it and rolls back. -/
def submit_response (st : DbState) (assessment_id question_id : ℕ)
    (answer_value : ℤ) (validate_answer : Bool) :
    Except AppError (DbState × ResponseRow) :=
  match find_assessment st assessment_id with
  | none =>
    .error (.assessment ("Assessment " ++ toString assessment_id ++
      " not found"))
  | some assessment =>
    if assessment.status = "completed" then
      .error (.assessment "Cannot modify completed assessment")
    else
      match st.questions.find? (fun q => q.q_id = question_id) with
      | none =>
        .error (.assessment ("Question " ++ toString question_id ++
          " not found"))
      | some question => do
        if validate_answer then validate_response question answer_value
        else .ok ()
        match find_response st assessment_id question_id with
        | some existing =>
          if ¬ (1 ≤ answer_value ∧ answer_value ≤ 4) then
            .error (.assessment
              "Response submission failed: Score must be between 1 and 4")
          else
            let updated := { existing with score := some answer_value }
            let st1 := update_response st existing.resp_id (fun _ => updated)
            let st2 :=
              if assessment.status = "draft" then
                update_assessment st1 assessment_id
                  (fun a => { a with status := "in_progress" })
              else st1
            .ok (st2, updated)
        | none =>
          .error (.assessment ("Response submission failed: " ++
            "'answer_value' is an invalid keyword argument for Response"))

/-- The database state after `submit_response` returns or raises: a raise
rolls the session back to the pre-call state. -/
def submit_response_final_state (st : DbState)
    (assessment_id question_id : ℕ) (answer_value : ℤ)
    (validate_answer : Bool) : DbState :=
  match submit_response st assessment_id question_id answer_value
      validate_answer with
  | .ok p => p.1
  | .error _ => st

/-- The `str(e)` of the exception that ends every finalization attempt: the
`Assessment` model defines no `metadata` column, so `assessment.metadata`
resolves to SQLAlchemy's class-level `MetaData` registry object (truthy,
so `assessment.metadata or {}` keeps it), and
`existing_metadata.update(completion_data)` raises `AttributeError` before
the commit.  The web layer works around this with raw SQL
("since SQLAlchemy model has schema mismatch"). -/
def metadata_update_error : String :=
  "'MetaData' object has no attribute 'update'"

/-- The completion results of `AssessmentService.complete_assessment`.  The
already-completed branch (`_get_completion_results`) returns the cached
metadata blob; it is marked `from_cache := true` here with the cached score,
and its re-entrant `complete_assessment(force=True)` call for a completed
assessment with no cached scores is not modelled (in the source that call
cannot terminate: it loops back into `_get_completion_results`).  The
`from_cache := false` finalized shape is unreachable: see
`metadata_update_error`. -/
structure CompletionResults where
  assessment_id : ℕ
  status : String
  from_cache : Bool
  cached_deviq : Option ℚ
  scores : Option ScoreResults
  total_recommendations : ℕ
  progress : Option ProgressData
deriving DecidableEq, Repr

/-- `AssessmentService.complete_assessment(assessment_id, force=False)`.  An
`.ok` result is the committed state plus the results dictionary; `.error`
models raise-plus-rollback.  After scoring and recommendations succeed, the
source sets `status`/`completed_at`/`deviq_score` on the instance and then
merges the completion data into `assessment.metadata` — which raises
`AttributeError` unconditionally (see `metadata_update_error`), so the
generic handler rolls back and wraps the error into
`AssessmentError("Assessment completion failed: …")`: the finalize branch
never reaches its commit. -/
def complete_assessment (templates : RecTemplates) (st : DbState)
    (assessment_id : ℕ) (force : Bool) :
    Except AppError (DbState × CompletionResults) :=
  match find_assessment st assessment_id with
  | none =>
    .error (.assessment ("Assessment " ++ toString assessment_id ++
      " not found"))
  | some assessment =>
    if assessment.status = "completed" then
      .ok (st,
        { assessment_id := assessment_id
          status := "completed"
          from_cache := true
          cached_deviq := assessment.deviq_score
          scores := none
          total_recommendations := 0
          progress := none })
    else do
      let progress ← get_assessment_progress st assessment_id
      if ¬ force ∧ ¬ progress.is_complete then
        .error (.assessment ("Assessment incomplete: " ++
          toString progress.responded_questions ++ "/" ++
          toString progress.total_questions ++ " questions answered"))
      else
        match calculate_assessment_score st assessment_id with
        | .error e =>
          .error (.assessment ("Assessment completion failed: " ++ e))
        | .ok _scoring_results =>
          match generate_assessment_recommendations templates st assessment_id
              20 none with
          | .error e =>
            .error (.assessment ("Assessment completion failed: " ++ e))
          | .ok _recommendations =>
            .error (.assessment ("Assessment completion failed: " ++
              metadata_update_error))

/-- The database state after `complete_assessment` returns or raises. -/
def complete_assessment_final_state (templates : RecTemplates) (st : DbState)
    (assessment_id : ℕ) (force : Bool) : DbState :=
  match complete_assessment templates st assessment_id force with
  | .ok p => p.1
  | .error _ => st

/-! ### Concrete states used by the witnesses and counterexamples -/

/-- One section, one area, one question, no responses, assessment 1 in
progress. -/
def demo_state_unanswered : DbState :=
  ⟨[⟨1, "Foundational Capabilities", 1⟩], [⟨1, 1, "AI Tooling", 1⟩],
   [⟨1, 1, 1⟩], [], [⟨1, "in_progress", none, false⟩]⟩

/-- Ten questions, nine of them answered (90% complete), assessment 1 in
progress. -/
def demo_state_90 : DbState :=
  ⟨[⟨1, "Foundational Capabilities", 1⟩], [⟨1, 1, "AI Tooling", 1⟩],
   [⟨1, 1, 1⟩, ⟨2, 1, 2⟩, ⟨3, 1, 3⟩, ⟨4, 1, 4⟩, ⟨5, 1, 5⟩,
    ⟨6, 1, 6⟩, ⟨7, 1, 7⟩, ⟨8, 1, 8⟩, ⟨9, 1, 9⟩, ⟨10, 1, 10⟩],
   [⟨1, 1, 1, some 3⟩, ⟨2, 1, 2, some 3⟩, ⟨3, 1, 3, some 3⟩,
    ⟨4, 1, 4, some 3⟩, ⟨5, 1, 5, some 3⟩, ⟨6, 1, 6, some 3⟩,
    ⟨7, 1, 7, some 3⟩, ⟨8, 1, 8, some 3⟩, ⟨9, 1, 9, some 3⟩],
   [⟨1, "in_progress", none, false⟩]⟩

/-- A single already-completed assessment with one stored response. -/
def demo_state_completed : DbState :=
  ⟨[⟨1, "Foundational Capabilities", 1⟩], [⟨1, 1, "AI Tooling", 1⟩],
   [⟨1, 1, 1⟩], [⟨1, 1, 1, some 2⟩], [⟨1, "completed", some 2, true⟩]⟩

/-! ### General lemmas about the averaging primitives -/

/-- Weighted sums with non-negative weights respect an upper bound on the
scores. -/
theorem zipWith_mul_sum_le (hi : ℚ) :
    ∀ (scores weights : List ℚ), scores.length = weights.length →
      (∀ w ∈ weights, 0 ≤ w) → (∀ x ∈ scores, x ≤ hi) →
      (List.zipWith (fun s w => s * w) scores weights).sum ≤ hi * weights.sum
  | [], [], _, _, _ => by simp
  | [], w :: ws, hlen, _, _ => by simp at hlen
  | s :: ss, [], hlen, _, _ => by simp at hlen
  | s :: ss, w :: ws, hlen, hw, hs => by
    simp only [List.zipWith_cons_cons, List.sum_cons]
    have h1 : s * w ≤ hi * w := by
      have := mul_le_mul_of_nonneg_right (hs s (by simp))
        (hw w (by simp))
      simpa using this
    have h2 : (List.zipWith (fun s w => s * w) ss ws).sum ≤ hi * ws.sum :=
      zipWith_mul_sum_le hi ss ws (by simpa using hlen)
        (fun x hx => hw x (by simp [hx]))
        (fun x hx => hs x (by simp [hx]))
    calc s * w + (List.zipWith (fun s w => s * w) ss ws).sum ≤
        hi * w + hi * ws.sum := add_le_add h1 h2
      _ = hi * (w :: ws).sum := by simp [mul_add]

/-- Weighted sums with non-negative weights respect a lower bound on the
scores. -/
theorem le_zipWith_mul_sum (lo : ℚ) :
    ∀ (scores weights : List ℚ), scores.length = weights.length →
      (∀ w ∈ weights, 0 ≤ w) → (∀ x ∈ scores, lo ≤ x) →
      lo * weights.sum ≤ (List.zipWith (fun s w => s * w) scores weights).sum
  | [], [], _, _, _ => by simp
  | [], w :: ws, hlen, _, _ => by simp at hlen
  | s :: ss, [], hlen, _, _ => by simp at hlen
  | s :: ss, w :: ws, hlen, hw, hs => by
    simp only [List.zipWith_cons_cons, List.sum_cons]
    have h1 : lo * w ≤ s * w := by
      have := mul_le_mul_of_nonneg_right (hs s (by simp))
        (hw w (by simp))
      simpa using this
    have h2 : lo * ws.sum ≤ (List.zipWith (fun s w => s * w) ss ws).sum :=
      le_zipWith_mul_sum lo ss ws (by simpa using hlen)
        (fun x hx => hw x (by simp [hx]))
        (fun x hx => hs x (by simp [hx]))
    calc lo * (w :: ws).sum = lo * w + lo * ws.sum := by simp [mul_add]
      _ ≤ s * w + (List.zipWith (fun s w => s * w) ss ws).sum :=
        add_le_add h1 h2

/-- `calculate_weighted_average` with explicit well-formed weights succeeds
and its value lies between any bounds enclosing all the scores. -/
theorem calculate_weighted_average_bounds (scores weights : List ℚ)
    (lo hi : ℚ) (hne : scores ≠ []) (hlen : scores.length = weights.length)
    (hw : ∀ w ∈ weights, 0 ≤ w) (hpos : 0 < weights.sum)
    (hlo : ∀ x ∈ scores, lo ≤ x) (hhi : ∀ x ∈ scores, x ≤ hi) :
    ∃ avg, calculate_weighted_average scores (some weights) = .ok avg ∧
      lo ≤ avg ∧ avg ≤ hi := by
  refine ⟨(List.zipWith (fun s w => s * w) scores weights).sum / weights.sum,
    ?_, ?_, ?_⟩
  · simp [calculate_weighted_average, hne, hlen, ne_of_gt hpos]
  · rw [le_div_iff₀ hpos]
    simpa [mul_comm] using le_zipWith_mul_sum lo scores weights hlen hw hlo
  · rw [div_le_iff₀ hpos]
    simpa [mul_comm] using zipWith_mul_sum_le hi scores weights hlen hw hhi

/-- Multiplying pointwise by the all-ones default weight list leaves the
scores unchanged. -/
theorem zipWith_mul_replicate_one (scores : List ℚ) :
    List.zipWith (fun s w => s * w) scores
      (List.replicate scores.length (1.0 : ℚ)) = scores := by
  induction scores with
  | nil => rfl
  | cons s ss ih =>
    simp only [List.length_cons, List.replicate_succ, List.zipWith_cons_cons,
      ih]
    norm_num

/-- With the omitted-`weights` default, `calculate_weighted_average` computes
the plain arithmetic mean. -/
theorem calculate_weighted_average_default (scores : List ℚ)
    (hne : scores ≠ []) :
    calculate_weighted_average scores none =
      .ok (scores.sum / (scores.length : ℚ)) := by
  have hlen : (0 : ℚ) < scores.length := by
    have : scores.length ≠ 0 := by
      simpa [List.length_eq_zero] using hne
    exact_mod_cast Nat.pos_of_ne_zero this
  have hsum : (List.replicate scores.length (1.0 : ℚ)).sum =
      (scores.length : ℚ) := by
    simp [List.sum_replicate, nsmul_eq_mul]
    norm_num
  simp [calculate_weighted_average, hne, zipWith_mul_replicate_one, hsum,
    ne_of_gt hlen]

/-- A nonempty list of rationals has a least element. -/
theorem exists_list_min (l : List ℚ) (h : l ≠ []) :
    ∃ m ∈ l, ∀ x ∈ l, m ≤ x := by
  induction l with
  | nil => exact absurd rfl h
  | cons a t ih =>
    by_cases ht : t = []
    · exact ⟨a, by simp, by simp [ht]⟩
    · obtain ⟨m, hm, hall⟩ := ih ht
      by_cases hma : a ≤ m
      · exact ⟨a, by simp, by
          intro x hx
          rcases List.mem_cons.mp hx with rfl | hx
          · exact le_refl x
          · exact le_trans hma (hall x hx)⟩
      · exact ⟨m, by simp [hm], by
          intro x hx
          rcases List.mem_cons.mp hx with rfl | hx
          · exact le_of_not_le hma
          · exact hall x hx⟩

/-- A nonempty list of rationals has a greatest element. -/
theorem exists_list_max (l : List ℚ) (h : l ≠ []) :
    ∃ m ∈ l, ∀ x ∈ l, x ≤ m := by
  induction l with
  | nil => exact absurd rfl h
  | cons a t ih =>
    by_cases ht : t = []
    · exact ⟨a, by simp, by simp [ht]⟩
    · obtain ⟨m, hm, hall⟩ := ih ht
      by_cases hma : m ≤ a
      · exact ⟨a, by simp, by
          intro x hx
          rcases List.mem_cons.mp hx with rfl | hx
          · exact le_refl x
          · exact le_trans (hall x hx) hma⟩
      · exact ⟨m, by simp [hm], by
          intro x hx
          rcases List.mem_cons.mp hx with rfl | hx
          · exact le_of_not_le hma
          · exact hall x hx⟩

/-- The sum of the all-ones default weight list. -/
theorem sum_replicate_one (n : ℕ) :
    (List.replicate n (1.0 : ℚ)).sum = (n : ℚ) := by
  simp [List.sum_replicate, nsmul_eq_mul]
  norm_num

/-- The arithmetic mean of a nonempty list lies between any bounds enclosing
all its elements. -/
theorem sum_div_length_bounds (l : List ℚ) (lo hi : ℚ) (hne : l ≠ [])
    (hlo : ∀ x ∈ l, lo ≤ x) (hhi : ∀ x ∈ l, x ≤ hi) :
    lo ≤ l.sum / (l.length : ℚ) ∧ l.sum / (l.length : ℚ) ≤ hi := by
  have hlen : (0 : ℚ) < (l.length : ℚ) := by
    have : l.length ≠ 0 := by simpa [List.length_eq_zero] using hne
    exact_mod_cast Nat.pos_of_ne_zero this
  have hwnn : ∀ w ∈ List.replicate l.length (1.0 : ℚ), 0 ≤ w := by
    intro w hw
    rw [List.eq_of_mem_replicate hw]
    norm_num
  constructor
  · rw [le_div_iff₀ hlen]
    have h := le_zipWith_mul_sum lo l (List.replicate l.length 1.0)
      (by simp) hwnn hlo
    rwa [zipWith_mul_replicate_one, sum_replicate_one] at h
  · rw [div_le_iff₀ hlen]
    have h := zipWith_mul_sum_le hi l (List.replicate l.length 1.0)
      (by simp) hwnn hhi
    rwa [zipWith_mul_replicate_one, sum_replicate_one] at h

/-- The clamp to `[MIN_SCORE, MAX_SCORE]` is idempotent. -/
theorem clamp_idem (x : ℚ) :
    max MIN_SCORE (min MAX_SCORE (max MIN_SCORE (min MAX_SCORE x))) =
      max MIN_SCORE (min MAX_SCORE x) := by
  have h14 : (MIN_SCORE : ℚ) ≤ MAX_SCORE := by norm_num [MIN_SCORE, MAX_SCORE]
  have h4 : max MIN_SCORE (min MAX_SCORE x) ≤ MAX_SCORE :=
    max_le h14 (min_le_left _ _)
  rw [min_eq_right h4, max_eq_right (le_max_left _ _)]

/-- `classify_maturity_level` spelt out: clamp, then compare against the
band lower bounds from highest to lowest. -/
theorem classify_maturity_level_fst (x : ℚ) :
    (classify_maturity_level x).1 =
      (if max MIN_SCORE (min MAX_SCORE x) ≥ 3.3 then MaturityLevel.FIRST
       else if max MIN_SCORE (min MAX_SCORE x) ≥ 2.5 then
         MaturityLevel.AUGMENTED
       else if max MIN_SCORE (min MAX_SCORE x) ≥ 1.8 then
         MaturityLevel.ASSISTED
       else MaturityLevel.TRADITIONAL) := by
  simp only [classify_maturity_level, MATURITY_THRESHOLDS]
  split_ifs <;> rfl

/-- C1: `classify_maturity_level` clamps every numeric score into
`[1.0, 4.0]` without signalling an error (it is a total function and
classifying a score equals classifying its clamp), then maps `[1.0, 1.8)` to
`TRADITIONAL`, `[1.8, 2.5)` to `ASSISTED`, `[2.5, 3.3)` to `AUGMENTED` and
`[3.3, 4.0]` to `FIRST`; in particular `1.0 ↦ TRADITIONAL`,
`1.8 ↦ ASSISTED`, `3.3 ↦ FIRST` and `4.0 ↦ FIRST`, so boundary scores
resolve to the higher band. -/
theorem classify_maturity_level_bands (x : ℚ) :
    classify_maturity_level x =
      classify_maturity_level (max MIN_SCORE (min MAX_SCORE x)) ∧
    (1.0 ≤ x → x < 1.8 →
      (classify_maturity_level x).1 = MaturityLevel.TRADITIONAL) ∧
    (1.8 ≤ x → x < 2.5 →
      (classify_maturity_level x).1 = MaturityLevel.ASSISTED) ∧
    (2.5 ≤ x → x < 3.3 →
      (classify_maturity_level x).1 = MaturityLevel.AUGMENTED) ∧
    (3.3 ≤ x → x ≤ 4.0 →
      (classify_maturity_level x).1 = MaturityLevel.FIRST) ∧
    (classify_maturity_level 1.0).1 = MaturityLevel.TRADITIONAL ∧
    (classify_maturity_level 1.8).1 = MaturityLevel.ASSISTED ∧
    (classify_maturity_level 3.3).1 = MaturityLevel.FIRST ∧
    (classify_maturity_level 4.0).1 = MaturityLevel.FIRST := by
  have hclamp : ∀ y : ℚ, 1.0 ≤ y → y ≤ 4.0 →
      max MIN_SCORE (min MAX_SCORE y) = y := by
    intro y h1 h4
    have hmin : min MAX_SCORE y = y :=
      min_eq_right (by rw [MAX_SCORE]; exact h4)
    have hmax : max MIN_SCORE y = y :=
      max_eq_right (by rw [MIN_SCORE]; exact h1)
    rw [hmin, hmax]
  refine ⟨?_, ?_, ?_, ?_, ?_, ?_, ?_, ?_, ?_⟩
  · simp only [classify_maturity_level, clamp_idem]
  · intro h1 h2
    rw [classify_maturity_level_fst, hclamp x h1 (by linarith)]
    rw [if_neg (by push_neg; linarith), if_neg (by push_neg; linarith),
      if_neg (by push_neg; linarith)]
  · intro h1 h2
    rw [classify_maturity_level_fst, hclamp x (by linarith) (by linarith)]
    rw [if_neg (by push_neg; linarith), if_neg (by push_neg; linarith),
      if_pos (by linarith)]
  · intro h1 h2
    rw [classify_maturity_level_fst, hclamp x (by linarith) (by linarith)]
    rw [if_neg (by push_neg; linarith), if_pos (by linarith)]
  · intro h1 h2
    rw [classify_maturity_level_fst, hclamp x (by linarith) h2]
    rw [if_pos (by linarith)]
  · rw [classify_maturity_level_fst, hclamp 1.0 (by norm_num) (by norm_num)]
    rw [if_neg (by norm_num), if_neg (by norm_num), if_neg (by norm_num)]
  · rw [classify_maturity_level_fst, hclamp 1.8 (by norm_num) (by norm_num)]
    rw [if_neg (by norm_num), if_neg (by norm_num), if_pos (by norm_num)]
  · rw [classify_maturity_level_fst, hclamp 3.3 (by norm_num) (by norm_num)]
    rw [if_pos (by norm_num)]
  · rw [classify_maturity_level_fst, hclamp 4.0 (by norm_num) (by norm_num)]
    rw [if_pos (by norm_num)]

/-- Witness for C1 at concrete scores 2.0 (an `ASSISTED` interior point) and
the stated boundaries. -/
theorem classify_maturity_level_bands_witness :
    (classify_maturity_level 2).1 = MaturityLevel.ASSISTED :=
  (classify_maturity_level_bands 2).2.2.1 (by norm_num) (by norm_num)

/-- C3: for a nonempty score list within `[1, 4]`,
`calculate_weighted_average` with the omitted default weights succeeds and
returns a value between the least and the greatest score. -/
theorem calculate_weighted_average_within_min_max (scores : List ℚ)
    (hne : scores ≠ []) (_hin : ∀ x ∈ scores, 1.0 ≤ x ∧ x ≤ 4.0) :
    ∃ avg m M, calculate_weighted_average scores none = .ok avg ∧
      m ∈ scores ∧ (∀ x ∈ scores, m ≤ x) ∧
      M ∈ scores ∧ (∀ x ∈ scores, x ≤ M) ∧
      m ≤ avg ∧ avg ≤ M := by
  obtain ⟨m, hm, hmle⟩ := exists_list_min scores hne
  obtain ⟨M, hM, hMle⟩ := exists_list_max scores hne
  have hb := sum_div_length_bounds scores m M hne hmle hMle
  exact ⟨scores.sum / (scores.length : ℚ), m, M,
    calculate_weighted_average_default scores hne, hm, hmle, hM, hMle,
    hb.1, hb.2⟩

/-- Witness for C3 on the concrete score list `[2, 3.5, 3.5]`. -/
theorem calculate_weighted_average_within_min_max_witness :
    ∃ avg m M, calculate_weighted_average [2, 3.5, 3.5] none = .ok avg ∧
      m ∈ [(2 : ℚ), 3.5, 3.5] ∧ (∀ x ∈ [(2 : ℚ), 3.5, 3.5], m ≤ x) ∧
      M ∈ [(2 : ℚ), 3.5, 3.5] ∧ (∀ x ∈ [(2 : ℚ), 3.5, 3.5], x ≤ M) ∧
      m ≤ avg ∧ avg ≤ M :=
  calculate_weighted_average_within_min_max [2, 3.5, 3.5] (by simp)
    (by intro x hx; fin_cases hx <;> norm_num)

/-- C5: with the default section weight 1.0,
`calculate_recommendation_priority` returns `HIGH` exactly when the weighted
combination `impact*0.4 + feasibility*0.4 + urgency*0.2` (urgency =
`(4.0 - current_score)/3.0`, impact/feasibility mapped high↦3, medium↦2,
low↦1) is at least 2.5, `MEDIUM` exactly when it lies in `[1.5, 2.5)`, and
`LOW` otherwise. -/
theorem calculate_recommendation_priority_thresholds (impact : ImpactLevel)
    (feasibility : FeasibilityLevel) (s : ℚ) (_h1 : 1.0 ≤ s) (_h4 : s ≤ 4.0)
    (val : ℚ)
    (hval : val = impact_points impact * 0.4 +
      feasibility_points feasibility * 0.4 + (4.0 - s) / 3.0 * 0.2) :
    (calculate_recommendation_priority impact feasibility s 1.0 =
        RecommendationPriority.HIGH ↔ val ≥ 2.5) ∧
    (calculate_recommendation_priority impact feasibility s 1.0 =
        RecommendationPriority.MEDIUM ↔ 1.5 ≤ val ∧ val < 2.5) ∧
    (calculate_recommendation_priority impact feasibility s 1.0 =
        RecommendationPriority.LOW ↔ val < 1.5) := by
  have key : calculate_recommendation_priority impact feasibility s 1.0 =
      (if val ≥ 2.5 then RecommendationPriority.HIGH
       else if val ≥ 1.5 then RecommendationPriority.MEDIUM
       else RecommendationPriority.LOW) := by
    simp only [calculate_recommendation_priority]
    have harg : (impact_points impact * 0.4 +
        feasibility_points feasibility * 0.4 + (4.0 - s) / 3.0 * 0.2) * 1.0 =
        val := by
      rw [hval]; ring
    rw [harg]
  rw [key]
  by_cases hv1 : val ≥ 2.5
  · rw [if_pos hv1]
    exact ⟨⟨fun _ => hv1, fun _ => rfl⟩,
      ⟨fun h => absurd h (by decide), fun h => absurd h.2 (not_lt.mpr hv1)⟩,
      ⟨fun h => absurd h (by decide), fun h => (by linarith : False).elim⟩⟩
  · rw [if_neg hv1]
    have hv1' : val < 2.5 := not_le.mp hv1
    by_cases hv2 : val ≥ 1.5
    · rw [if_pos hv2]
      exact ⟨⟨fun h => absurd h (by decide), fun h => absurd h hv1⟩,
        ⟨fun _ => ⟨hv2, hv1'⟩, fun _ => rfl⟩,
        ⟨fun h => absurd h (by decide),
         fun h => absurd hv2 (not_le.mpr h)⟩⟩
    · rw [if_neg hv2]
      have hv2' : val < 1.5 := not_le.mp hv2
      exact ⟨⟨fun h => absurd h (by decide), fun h => absurd h hv1⟩,
        ⟨fun h => absurd h (by decide), fun h => absurd h.1 hv2⟩,
        ⟨fun _ => hv2', fun _ => rfl⟩⟩

/-- Witness for C5: high impact, high feasibility at score 2.5 combine to
exactly 2.5 and yield `HIGH`. -/
theorem calculate_recommendation_priority_thresholds_witness :
    calculate_recommendation_priority ImpactLevel.HIGH FeasibilityLevel.HIGH
      2.5 1.0 = RecommendationPriority.HIGH :=
  (calculate_recommendation_priority_thresholds .HIGH .HIGH 2.5 (by norm_num)
      (by norm_num) 2.5
      (by norm_num [impact_points, feasibility_points])).1.mpr
    (by norm_num)

/-- C9: a recommendation whose impact level is `HIGH` is always classified
`TRANSFORMATIONAL` by `classify_recommendation_type`, never as a quick win,
strategic or foundational item, whatever the text and feasibility are: the
quick-win branch requires low or medium impact, and the transformational
branch accepts `impact == HIGH` outright. -/
theorem classify_recommendation_type_high_impact (text : String)
    (feasibility : FeasibilityLevel) (implementation_time : Option String) :
    classify_recommendation_type text ImpactLevel.HIGH feasibility
      implementation_time = RecommendationType.TRANSFORMATIONAL := by
  simp [classify_recommendation_type]

/-- Inserting an element into a list commutes with filtering by an exact
ranking-key value: the inserted element only ever passes elements with a
strictly larger key, so it lands in front of the equal-key block. -/
theorem filter_key_orderedInsert (k : ℚ) (x : RecDict) (l : List RecDict) :
    (List.orderedInsert
        (fun a b => rank_priority_score b ≤ rank_priority_score a) x l).filter
        (fun r => rank_priority_score r = k) =
      if rank_priority_score x = k then
        x :: l.filter (fun r => rank_priority_score r = k)
      else l.filter (fun r => rank_priority_score r = k) := by
  induction l with
  | nil =>
    by_cases hx : rank_priority_score x = k <;>
      simp [List.orderedInsert, List.filter_cons, hx]
  | cons y t ih =>
    simp only [List.orderedInsert]
    by_cases hr : rank_priority_score y ≤ rank_priority_score x
    · rw [if_pos hr]
      by_cases hx : rank_priority_score x = k <;>
        by_cases hyk : rank_priority_score y = k <;>
          simp [List.filter_cons, hx, hyk]
    · rw [if_neg hr]
      by_cases hx : rank_priority_score x = k
      · have hyk : ¬ rank_priority_score y = k := by
          intro hyk
          exact hr (le_of_eq (hyk.trans hx.symm))
        simp [List.filter_cons, hyk, ih, hx]
      · by_cases hyk : rank_priority_score y = k <;>
          simp [List.filter_cons, hyk, ih, hx]

/-- Filtering by an exact ranking-key value commutes with the stable sort. -/
theorem filter_key_insertionSort (k : ℚ) (l : List RecDict) :
    (List.insertionSort
        (fun a b => rank_priority_score b ≤ rank_priority_score a) l).filter
        (fun r => rank_priority_score r = k) =
      l.filter (fun r => rank_priority_score r = k) := by
  induction l with
  | nil => rfl
  | cons x t ih =>
    by_cases hx : rank_priority_score x = k <;>
      simp [List.insertionSort, filter_key_orderedInsert, hx, ih,
        List.filter]

/-- C6: `rank_recommendations` returns a permutation of its input that is
sorted by non-increasing composite score
`priority*0.4 + impact*0.3 + feasibility*0.2 + score_improvement*0.1`
(missing fields defaulting to medium / 0), and it is deterministic and
stable: it is a pure function of the input list, and for every composite
score value the sub-list of recommendations carrying exactly that score is
kept in input order. -/
theorem rank_recommendations_spec (recs : List RecDict) :
    (rank_recommendations recs).Perm recs ∧
    (rank_recommendations recs).Sorted
      (fun a b => rank_priority_score b ≤ rank_priority_score a) ∧
    ∀ k : ℚ,
      (rank_recommendations recs).filter
          (fun r => rank_priority_score r = k) =
        recs.filter (fun r => rank_priority_score r = k) := by
  refine ⟨List.perm_insertionSort _ recs, ?_, fun k => ?_⟩
  · haveI ht : IsTotal RecDict
        (fun a b => rank_priority_score b ≤ rank_priority_score a) :=
      ⟨fun a b => le_total _ _⟩
    haveI htr : IsTrans RecDict
        (fun a b => rank_priority_score b ≤ rank_priority_score a) :=
      ⟨fun a b c hab hbc => le_trans hbc hab⟩
    exact List.sorted_insertionSort _ recs
  · exact filter_key_insertionSort k recs

/-- Coverage of zero responses is zero whatever the question count is. -/
theorem calculate_section_coverage_zero (n : ℕ) :
    calculate_section_coverage 0 n = 0 := by
  by_cases h : n ≤ 0
  · norm_num [calculate_section_coverage, h]
  · norm_num [calculate_section_coverage, h]

/-- `validate_score_inputs` succeeds on a nonempty in-range score list with
well-formed weights. -/
theorem validate_score_inputs_ok (scores weights : List ℚ) (hne : scores ≠ [])
    (hin : ∀ x ∈ scores, MIN_SCORE ≤ x ∧ x ≤ MAX_SCORE)
    (hlen : weights.length = scores.length)
    (hwnn : ∀ w ∈ weights, 0 ≤ w) (hsum : weights.sum ≠ 0) :
    validate_score_inputs scores (some weights) = .ok () := by
  have hall : (scores.all (fun s => MIN_SCORE ≤ s ∧ s ≤ MAX_SCORE)) = true := by
    rw [List.all_eq_true]
    intro x hx
    exact decide_eq_true (hin x hx)
  have hwall : (weights.all (fun w => 0 ≤ w)) = true := by
    rw [List.all_eq_true]
    intro w hw
    exact decide_eq_true (hwnn w hw)
  simp only [validate_score_inputs, if_neg hne, hall, hlen, hwall, hsum]
  simp [hall, hlen, hwall, hsum, hne]

/-- `calculate_weighted_average` against an explicit all-ones weight list is
the arithmetic mean. -/
theorem calculate_weighted_average_replicate (scores : List ℚ)
    (hne : scores ≠ []) :
    calculate_weighted_average scores
        (some (List.replicate scores.length 1.0)) =
      .ok (scores.sum / (scores.length : ℚ)) := by
  have hlen : (0 : ℚ) < scores.length := by
    have : scores.length ≠ 0 := by simpa [List.length_eq_zero] using hne
    exact_mod_cast Nat.pos_of_ne_zero this
  have hsum : (List.replicate scores.length (1.0 : ℚ)).sum =
      (scores.length : ℚ) := sum_replicate_one scores.length
  simp [calculate_weighted_average, hne, zipWith_mul_replicate_one, hsum,
    ne_of_gt hlen]

/-- Every clamped answered score lies in the valid `[1, 4]` range. -/
theorem answered_question_scores_bounds (st : DbState)
    (assessment_id area_id : ℕ) :
    ∀ x ∈ answered_question_scores st assessment_id area_id,
      MIN_SCORE ≤ x ∧ x ≤ MAX_SCORE := by
  intro x hx
  obtain ⟨q, _, hq⟩ := List.mem_filterMap.mp hx
  obtain ⟨r, _, hr⟩ := Option.bind_eq_some.mp hq
  obtain ⟨s, _, hs⟩ := Option.map_eq_some'.mp hr
  constructor
  · rw [← hs, MIN_SCORE]
    exact le_max_left _ _
  · rw [← hs, MAX_SCORE]
    refine max_le (by norm_num) ?_
    exact le_trans (min_le_left _ _) (by norm_num)

/-- An area with no answered questions scores `MIN_SCORE` with zero coverage,
without an error. -/
theorem calculate_area_score_unanswered (st : DbState)
    (assessment_id area_id : ℕ)
    (h : answered_question_scores st assessment_id area_id = []) :
    calculate_area_score st assessment_id area_id =
      .ok ⟨MIN_SCORE, 1.0, 0, (area_questions st area_id).length, 0⟩ := by
  by_cases hq : area_questions st area_id = []
  · simp [calculate_area_score, hq]
    norm_num
  · rw [calculate_area_score, if_neg hq]
    simp only [h]
    rw [if_neg (by simp)]
    simp only [List.length_nil]
    rw [calculate_section_coverage_zero]

/-- An area with answered questions scores the arithmetic mean of exactly the
answered (clamped) scores — the denominator is the answered count, not the
question count — without an error. -/
theorem calculate_area_score_answered (st : DbState)
    (assessment_id area_id : ℕ) (s : ℚ) (l : List ℚ)
    (h : answered_question_scores st assessment_id area_id = s :: l) :
    calculate_area_score st assessment_id area_id =
      .ok ⟨(s :: l).sum / ((s :: l).length : ℚ), 1.0, (s :: l).length,
        (area_questions st area_id).length,
        calculate_section_coverage (s :: l).length
          (area_questions st area_id).length⟩ := by
  have hq : area_questions st area_id ≠ [] := by
    intro hq
    rw [answered_question_scores, hq] at h
    simp at h
  have hbounds := answered_question_scores_bounds st assessment_id area_id
  rw [h] at hbounds
  have hne : (s :: l) ≠ [] := by simp
  have hval := validate_score_inputs_ok (s :: l)
    (List.replicate (s :: l).length 1.0) hne hbounds
    (by simp)
    (fun w hw => by rw [List.eq_of_mem_replicate hw]; norm_num)
    (by
      rw [sum_replicate_one]
      have hpos : (0 : ℚ) < ((s :: l).length : ℚ) := by
        exact_mod_cast Nat.succ_pos l.length
      exact ne_of_gt hpos)
  have havg := calculate_weighted_average_replicate (s :: l) hne
  rw [calculate_area_score, if_neg hq]
  simp only [h]
  rw [if_pos (by simp)]
  rw [hval, havg]
  rfl

/-- Monadic bind on a successful `Except` value. -/
theorem except_ok_bind {ε α β : Type} (x : α) (f : α → Except ε β) :
    (Except.ok x : Except ε α) >>= f = f x := rfl

/-- Evaluating the per-area loop of `_calculate_single_section_score` over
areas that all have no answered questions. -/
theorem mapM_area_scores_unanswered (st : DbState) (assessment_id : ℕ)
    (areas : List AreaRow)
    (h : ∀ a ∈ areas,
      answered_question_scores st assessment_id a.area_id = []) :
    areas.mapM
        (fun area =>
          (calculate_area_score st assessment_id area.area_id).map
            (fun d => (area, d))) =
      .ok (areas.map
        (fun a => (a, ⟨MIN_SCORE, 1.0, 0,
          (area_questions st a.area_id).length, 0⟩))) := by
  induction areas with
  | nil => rfl
  | cons a t ih =>
    rw [List.mapM_cons]
    rw [calculate_area_score_unanswered st assessment_id a.area_id
      (h a (by simp))]
    rw [show ((Except.ok
        (⟨MIN_SCORE, 1.0, 0, (area_questions st a.area_id).length, 0⟩ :
          AreaScoreData) : Except String AreaScoreData).map
        (fun d => (a, d))) = Except.ok
        (a, (⟨MIN_SCORE, 1.0, 0, (area_questions st a.area_id).length, 0⟩ :
          AreaScoreData)) from rfl]
    rw [except_ok_bind, ih (fun x hx => h x (by simp [hx]))]
    rfl

/-- C4: an area with zero answered questions gets score `MIN_SCORE` (1.0)
and coverage 0.0 from the aggregator with no error raised; when answered
questions exist, the area score averages exactly the answered (clamped)
scores, so unanswered questions are excluded from the denominator rather
than counted as zero; and a section all of whose areas are unanswered
likewise gets score `MIN_SCORE` and coverage 0.0 with no error. -/
theorem area_section_scores_unanswered (st : DbState)
    (assessment_id area_id section_id : ℕ) :
    (answered_question_scores st assessment_id area_id = [] →
      calculate_area_score st assessment_id area_id =
        .ok ⟨MIN_SCORE, 1.0, 0, (area_questions st area_id).length, 0⟩) ∧
    (∀ s : ℚ, ∀ l : List ℚ,
      answered_question_scores st assessment_id area_id = s :: l →
      calculate_area_score st assessment_id area_id =
        .ok ⟨(s :: l).sum / ((s :: l).length : ℚ), 1.0, (s :: l).length,
          (area_questions st area_id).length,
          calculate_section_coverage (s :: l).length
            (area_questions st area_id).length⟩) ∧
    ((∀ a ∈ st.areas, a.section_id = section_id →
        answered_question_scores st assessment_id a.area_id = []) →
      ∃ d, calculate_single_section_score st assessment_id section_id =
          .ok d ∧
        d.score = MIN_SCORE ∧ d.coverage = 0 ∧ d.responses_count = 0) := by
  refine ⟨calculate_area_score_unanswered st assessment_id area_id,
    fun s l => calculate_area_score_answered st assessment_id area_id s l,
    fun h => ?_⟩
  set areasL := order_by_display (fun a => a.display_order)
    (st.areas.filter (fun a => a.section_id = section_id)) with hareas
  have hmem : ∀ a ∈ areasL,
      answered_question_scores st assessment_id a.area_id = [] := by
    intro a ha
    rw [hareas, order_by_display] at ha
    have ha2 := (List.mem_insertionSort _).mp ha
    obtain ⟨hmem', hsec⟩ := List.mem_filter.mp ha2
    exact h a hmem' (by simpa using hsec)
  by_cases hA : areasL = []
  · refine ⟨⟨MIN_SCORE, [], 0.0, 0, 0⟩, ?_, rfl, by norm_num, rfl⟩
    rw [calculate_single_section_score, ← hareas, hA]
    rfl
  · rw [calculate_single_section_score, ← hareas]
    rw [if_neg hA]
    rw [mapM_area_scores_unanswered st assessment_id areasL hmem,
      except_ok_bind]
    set results := areasL.map
      (fun a => (a, (⟨MIN_SCORE, 1.0, 0,
        (area_questions st a.area_id).length, 0⟩ : AreaScoreData)))
      with hres
    have hscores : results.map (fun p => p.2.score) =
        List.replicate areasL.length MIN_SCORE := by
      rw [hres]
      simp [List.map_map, Function.comp_def, List.map_const']
    have hweights : results.map (fun p => p.2.weight) =
        List.replicate areasL.length (1.0 : ℚ) := by
      rw [hres]
      simp [List.map_map, Function.comp_def, List.map_const']
    have hcounts : results.map (fun p => p.2.responses_count) =
        List.replicate areasL.length 0 := by
      rw [hres]
      simp [List.map_map, Function.comp_def, List.map_const']
    have hlenpos : areasL.length ≠ 0 := by
      simpa [List.length_eq_zero] using hA
    have hscne : results.map (fun p => p.2.score) ≠ [] := by
      rw [hscores]
      simpa [← List.length_eq_zero, List.length_replicate] using hlenpos
    have hval := validate_score_inputs_ok
      (results.map (fun p => p.2.score)) (results.map (fun p => p.2.weight))
      hscne
      (by
        intro x hx
        rw [hscores] at hx
        rw [List.eq_of_mem_replicate hx]
        norm_num [MIN_SCORE, MAX_SCORE])
      (by rw [hscores, hweights]; simp)
      (by
        intro w hw
        rw [hweights] at hw
        rw [List.eq_of_mem_replicate hw]
        norm_num)
      (by
        rw [hweights, sum_replicate_one]
        exact_mod_cast hlenpos)
    obtain ⟨avg, havg, hlo, hhi⟩ := calculate_weighted_average_bounds
      (results.map (fun p => p.2.score)) (results.map (fun p => p.2.weight))
      MIN_SCORE MIN_SCORE hscne (by simp)
      (by
        intro w hw
        rw [hweights] at hw
        rw [List.eq_of_mem_replicate hw]
        norm_num)
      (by
        rw [hweights, sum_replicate_one]
        have : (0 : ℚ) < (areasL.length : ℚ) := by
          exact_mod_cast Nat.pos_of_ne_zero hlenpos
        exact this)
      (by
        intro x hx
        rw [hscores] at hx
        exact le_of_eq (List.eq_of_mem_replicate hx).symm)
      (by
        intro x hx
        rw [hscores] at hx
        exact le_of_eq (List.eq_of_mem_replicate hx))
    have havg1 : avg = MIN_SCORE := le_antisymm hhi hlo
    have hsum0 : (results.map (fun p => p.2.responses_count)).sum = 0 := by
      rw [hcounts]
      simp [List.sum_replicate]
    rw [if_pos (by rw [hscores]; simpa [← List.length_eq_zero,
      List.length_replicate] using hlenpos)]
    rw [hval, except_ok_bind, havg, except_ok_bind, havg1]
    refine ⟨_, rfl, rfl, ?_, ?_⟩
    · simp only [hsum0]
      rw [calculate_section_coverage_zero]
    · simpa using hsum0

/-- Witness for C4 on a concrete area with one question and no responses. -/
theorem area_section_scores_unanswered_witness :
    calculate_area_score demo_state_unanswered 1 1 =
      .ok ⟨MIN_SCORE, 1.0, 0, (area_questions demo_state_unanswered 1).length,
        0⟩ :=
  (area_section_scores_unanswered demo_state_unanswered 1 1 1).1 rfl

/-- A `dict.get` with a default behaves as the default when the key is
absent. -/
theorem dictGetD_eq_of_get?_none {β : Type} (l : List (String × β))
    (k : String) (d : β) (h : dictGet? l k = none) : dictGetD l k d = d := by
  rw [dictGetD, dictGet?] at *
  cases hf : l.find? (fun p => p.1 = k) with
  | none => rfl
  | some p => rw [hf] at h; simp at h

/-- A `dict.get` with a default returns the stored value when the key is
present. -/
theorem dictGetD_eq_of_get?_some {β : Type} (l : List (String × β))
    (k : String) (d : β) (m : β) (h : dictGet? l k = some m) :
    dictGetD l k d = m := by
  rw [dictGetD, dictGet?] at *
  cases hf : l.find? (fun p => p.1 = k) with
  | none => rw [hf] at h; simp at h
  | some p =>
    rw [hf] at h
    simp only [Option.map_some'] at h
    simpa using h

/-- C7: when the transition key of a section (or the normalized section key
inside the transition's map) is absent from the loaded templates, the
recommendation selector produces an empty list for that section and no error
reaches the caller. -/
theorem generate_section_recommendations_lookup_miss (templates : RecTemplates)
    (section_data : SectionEntry) (overall_deviq : ℚ)
    (h : dictGet? templates.level_transitions
        (get_maturity_transition_key
          (maturity_level_to_number
            (classify_maturity_level section_data.score).1)
          (get_next_level_recommendations
            (maturity_level_to_number
              (classify_maturity_level section_data.score).1))) = none ∨
      ∀ m, dictGet? templates.level_transitions
          (get_maturity_transition_key
            (maturity_level_to_number
              (classify_maturity_level section_data.score).1)
            (get_next_level_recommendations
              (maturity_level_to_number
                (classify_maturity_level section_data.score).1))) = some m →
        dictGet? m (normalizeSectionKey section_data.section_name) = none) :
    generate_section_recommendations templates section_data overall_deviq =
      [] := by
  have hst : dictGetD
      (dictGetD templates.level_transitions
        (get_maturity_transition_key
          (maturity_level_to_number
            (classify_maturity_level section_data.score).1)
          (get_next_level_recommendations
            (maturity_level_to_number
              (classify_maturity_level section_data.score).1)))
        ([] : List (String × List String)))
      (normalizeSectionKey section_data.section_name)
      ([] : List String) = [] := by
    rcases h with h | h
    · rw [dictGetD_eq_of_get?_none _ _ _ h]
      rfl
    · rcases hm : dictGet? templates.level_transitions
          (get_maturity_transition_key
            (maturity_level_to_number
              (classify_maturity_level section_data.score).1)
            (get_next_level_recommendations
              (maturity_level_to_number
                (classify_maturity_level section_data.score).1))) with _ | m
      · rw [dictGetD_eq_of_get?_none _ _ _ hm]
        rfl
      · rw [dictGetD_eq_of_get?_some _ _ _ _ hm]
        exact dictGetD_eq_of_get?_none _ _ _ (h m hm)
  simp only [generate_section_recommendations, hst]
  rfl

/-- Witness for C7 on an empty template set (every lookup misses). -/
theorem generate_section_recommendations_lookup_miss_witness :
    generate_section_recommendations ⟨[]⟩
      ⟨1, "Some Section", 2, [], 1, 0, 0, none⟩ 2 = [] :=
  generate_section_recommendations_lookup_miss ⟨[]⟩
    ⟨1, "Some Section", 2, [], 1, 0, 0, none⟩ 2 (Or.inl rfl)

/-- C10: a section scoring in the top band (score ≥ 3.3, `FIRST`) is mapped
to target level `min(4, 4+1) = 4` and transition key `"4_to_4"`, a key the
default templates do not define (they only define `"1_to_2"`, `"2_to_3"`,
`"3_to_4"`), so the recommendation selector always returns an empty list for
such a section. -/
theorem top_band_section_gets_no_recommendations (section_data : SectionEntry)
    (overall_deviq : ℚ) (h : 3.3 ≤ section_data.score) :
    get_maturity_transition_key 4 4 = "4_to_4" ∧
    get_default_recommendations.level_transitions.map Prod.fst =
      ["1_to_2", "2_to_3", "3_to_4"] ∧
    dictGet? get_default_recommendations.level_transitions "4_to_4" = none ∧
    generate_section_recommendations get_default_recommendations section_data
      overall_deviq = [] := by
  have hclass : (classify_maturity_level section_data.score).1 =
      MaturityLevel.FIRST := by
    rw [classify_maturity_level_fst]
    rw [if_pos ?_]
    refine le_trans ?_ (le_max_right MIN_SCORE _)
    refine le_min (by norm_num [MAX_SCORE]) h
  have hkey : get_maturity_transition_key 4 4 = "4_to_4" := rfl
  have hmiss : dictGet? get_default_recommendations.level_transitions
      "4_to_4" = none := rfl
  refine ⟨hkey, rfl, hmiss, ?_⟩
  have hnum : maturity_level_to_number
      (classify_maturity_level section_data.score).1 = 4 := by
    rw [hclass]
    rfl
  have hnext : get_next_level_recommendations 4 = 4 := rfl
  have hempty : dictGetD get_default_recommendations.level_transitions
      "4_to_4" ([] : List (String × List String)) = [] :=
    dictGetD_eq_of_get?_none _ _ _ hmiss
  simp only [generate_section_recommendations, hnum, hnext, hkey, hempty]
  rfl

/-- Witness for C10 at the concrete section score 3.5. -/
theorem top_band_section_gets_no_recommendations_witness :
    get_maturity_transition_key 4 4 = "4_to_4" ∧
    get_default_recommendations.level_transitions.map Prod.fst =
      ["1_to_2", "2_to_3", "3_to_4"] ∧
    dictGet? get_default_recommendations.level_transitions "4_to_4" = none ∧
    generate_section_recommendations get_default_recommendations
      ⟨1, "Foundational Capabilities", 3.5, [], 1, 9, 10, none⟩ 3.5 = [] :=
  top_band_section_gets_no_recommendations
    ⟨1, "Foundational Capabilities", 3.5, [], 1, 9, 10, none⟩ 3.5
    (by norm_num)

/-- C8: submitting a response against a completed assessment raises
`AssessmentError` and leaves the stored Response rows (indeed the whole
database state) unchanged: completed assessments are immutable to response
changes at the application layer. -/
theorem submit_response_completed_immutable (st : DbState)
    (assessment_id question_id : ℕ) (answer_value : ℤ)
    (validate_answer : Bool) (a : AssessmentRow)
    (ha : find_assessment st assessment_id = some a)
    (hstatus : a.status = "completed") :
    submit_response st assessment_id question_id answer_value
        validate_answer =
      .error (.assessment "Cannot modify completed assessment") ∧
    submit_response_final_state st assessment_id question_id answer_value
        validate_answer = st := by
  have herr : submit_response st assessment_id question_id answer_value
      validate_answer =
      .error (.assessment "Cannot modify completed assessment") := by
    simp only [submit_response, ha, hstatus]
    rfl
  refine ⟨herr, ?_⟩
  simp only [submit_response_final_state, herr]

/-- Witness for C8 on a concrete completed assessment with one stored
response. -/
theorem submit_response_completed_immutable_witness :
    submit_response demo_state_completed 1 1 3 true =
      .error (.assessment "Cannot modify completed assessment") ∧
    submit_response_final_state demo_state_completed 1 1 3 true =
      demo_state_completed :=
  submit_response_completed_immutable demo_state_completed 1 1 3 true
    ⟨1, "completed", some 2, true⟩ rfl rfl

/-- The area aggregator never errors, always yields a score in `[1, 4]`, and
always yields weight 1.0. -/
theorem calculate_area_score_ok (st : DbState) (assessment_id area_id : ℕ) :
    ∃ d, calculate_area_score st assessment_id area_id = .ok d ∧
      MIN_SCORE ≤ d.score ∧ d.score ≤ MAX_SCORE ∧ d.weight = 1.0 := by
  cases hans : answered_question_scores st assessment_id area_id with
  | nil =>
    refine ⟨_, calculate_area_score_unanswered st assessment_id area_id hans,
      le_refl _, ?_, rfl⟩
    norm_num [MIN_SCORE, MAX_SCORE]
  | cons s l =>
    have hbounds := answered_question_scores_bounds st assessment_id area_id
    rw [hans] at hbounds
    have hb := sum_div_length_bounds (s :: l) MIN_SCORE MAX_SCORE (by simp)
      (fun x hx => (hbounds x hx).1) (fun x hx => (hbounds x hx).2)
    exact ⟨_, calculate_area_score_answered st assessment_id area_id s l hans,
      hb.1, hb.2, rfl⟩

/-- The per-area loop of the section aggregator never errors; the returned
pairs carry in-range scores and unit weights, one per area. -/
theorem mapM_area_scores_ok (st : DbState) (assessment_id : ℕ)
    (areas : List AreaRow) :
    ∃ results, areas.mapM
        (fun area =>
          (calculate_area_score st assessment_id area.area_id).map
            (fun d => (area, d))) = .ok results ∧
      results.length = areas.length ∧
      ∀ p ∈ results, (MIN_SCORE ≤ p.2.score ∧ p.2.score ≤ MAX_SCORE) ∧
        p.2.weight = 1.0 := by
  induction areas with
  | nil => exact ⟨[], rfl, rfl, by simp⟩
  | cons a t ih =>
    obtain ⟨d, hd, hd1, hd2, hdw⟩ := calculate_area_score_ok st assessment_id
      a.area_id
    obtain ⟨results, hres, hlen, hmem⟩ := ih
    refine ⟨(a, d) :: results, ?_, by simp [hlen], ?_⟩
    · rw [List.mapM_cons, hd]
      rw [show ((Except.ok d : Except String AreaScoreData).map
          (fun x => (a, x))) = Except.ok (a, d) from rfl]
      rw [except_ok_bind, hres]
      rfl
    · intro p hp
      rcases List.mem_cons.mp hp with rfl | hp
      · exact ⟨⟨hd1, hd2⟩, hdw⟩
      · exact hmem p hp

/-- If every element of a list equals a constant, the sum is length times
that constant. -/
theorem list_sum_const_of_mem (ws : List ℚ) (c : ℚ)
    (h : ∀ w ∈ ws, w = c) : ws.sum = (ws.length : ℚ) * c := by
  induction ws with
  | nil => simp
  | cons w t ih =>
    have hw : w = c := h w (by simp)
    have ht : t.sum = (t.length : ℚ) * c :=
      ih (fun x hx => h x (by simp [hx]))
    rw [List.sum_cons, hw, ht, List.length_cons]
    push_cast
    ring

/-- The section aggregator never errors and yields a score in `[1, 4]`. -/
theorem calculate_single_section_score_ok (st : DbState)
    (assessment_id section_id : ℕ) :
    ∃ d, calculate_single_section_score st assessment_id section_id =
        .ok d ∧ MIN_SCORE ≤ d.score ∧ d.score ≤ MAX_SCORE := by
  rw [calculate_single_section_score]
  set areasL := order_by_display (fun a => a.display_order)
    (st.areas.filter (fun a => a.section_id = section_id)) with hareas
  by_cases hA : areasL = []
  · rw [if_pos hA]
    exact ⟨_, rfl, le_refl _, by norm_num [MIN_SCORE, MAX_SCORE]⟩
  · rw [if_neg hA]
    obtain ⟨results, hres, hlen, hmem⟩ := mapM_area_scores_ok st
      assessment_id areasL
    have hlpos : results.length ≠ 0 := by
      rw [hlen]
      simpa [List.length_eq_zero] using hA
    have hscne : results.map (fun p => p.2.score) ≠ [] := by
      simpa [← List.length_eq_zero] using hlpos
    have hwone : ∀ w ∈ results.map (fun p => p.2.weight), w = 1.0 := by
      intro w hw
      obtain ⟨p, hp, rfl⟩ := List.mem_map.mp hw
      exact (hmem p hp).2
    have hwsum : (results.map (fun p => p.2.weight)).sum =
        ((results.map (fun p => p.2.weight)).length : ℚ) * 1.0 :=
      list_sum_const_of_mem _ _ hwone
    have hwpos : (0 : ℚ) < (results.map (fun p => p.2.weight)).sum := by
      rw [hwsum]
      have : (0 : ℚ) < ((results.map (fun p => p.2.weight)).length : ℚ) := by
        have hmaplen : (results.map (fun p => p.2.weight)).length ≠ 0 := by
          simpa using hlpos
        exact_mod_cast Nat.pos_of_ne_zero hmaplen
      calc (0 : ℚ) < ((results.map (fun p => p.2.weight)).length : ℚ) := this
        _ = ((results.map (fun p => p.2.weight)).length : ℚ) * 1.0 := by
          norm_num
    have hval := validate_score_inputs_ok (results.map (fun p => p.2.score))
      (results.map (fun p => p.2.weight)) hscne
      (by
        intro x hx
        obtain ⟨p, hp, rfl⟩ := List.mem_map.mp hx
        exact (hmem p hp).1)
      (by simp)
      (fun w hw => by rw [hwone w hw]; norm_num)
      (ne_of_gt hwpos)
    obtain ⟨avg, havg, hlo, hhi⟩ := calculate_weighted_average_bounds
      (results.map (fun p => p.2.score)) (results.map (fun p => p.2.weight))
      MIN_SCORE MAX_SCORE hscne (by simp)
      (fun w hw => by rw [hwone w hw]; norm_num) hwpos
      (by
        intro x hx
        obtain ⟨p, hp, rfl⟩ := List.mem_map.mp hx
        exact (hmem p hp).1.1)
      (by
        intro x hx
        obtain ⟨p, hp, rfl⟩ := List.mem_map.mp hx
        exact (hmem p hp).1.2)
    rw [hres, except_ok_bind]
    rw [if_pos hscne, hval, except_ok_bind, havg, except_ok_bind]
    exact ⟨_, rfl, hlo, hhi⟩

/-- Every entry of the section-scores dictionary carries a score in
`[1, 4]`. -/
theorem calculate_section_scores_bounds (st : DbState) (assessment_id : ℕ) :
    ∀ p ∈ calculate_section_scores st assessment_id,
      MIN_SCORE ≤ p.2.score ∧ p.2.score ≤ MAX_SCORE := by
  intro p hp
  obtain ⟨sec, _, rfl⟩ := List.mem_map.mp hp
  obtain ⟨d, hd, hd1, hd2⟩ := calculate_single_section_score_ok st
    assessment_id sec.sec_id
  rw [hd]
  exact ⟨hd1, hd2⟩

/-- Every weight drawn from `SECTION_WEIGHTS` with default 0.25 is 0.25. -/
theorem section_weight_const (k : String) :
    dictGetD SECTION_WEIGHTS k 0.25 = 0.25 := by
  by_cases h1 : k = "foundational_capabilities"
  · subst h1; rfl
  by_cases h2 : k = "transformation_capabilities"
  · subst h2; rfl
  by_cases h3 : k = "enterprise_integration"
  · subst h3; rfl
  by_cases h4 : k = "strategic_governance"
  · subst h4; rfl
  rw [dictGetD, SECTION_WEIGHTS]
  rw [List.find?_cons_of_neg _ (by
      simp only [decide_eq_true_eq]
      exact fun h => h1 h.symm),
    List.find?_cons_of_neg _ (by
      simp only [decide_eq_true_eq]
      exact fun h => h2 h.symm),
    List.find?_cons_of_neg _ (by
      simp only [decide_eq_true_eq]
      exact fun h => h3 h.symm),
    List.find?_cons_of_neg _ (by
      simp only [decide_eq_true_eq]
      exact fun h => h4 h.symm)]
  rfl

set_option maxHeartbeats 1000000 in
/-- The overall AFS score computation never errors when every section entry
is in range, and returns a value in `[1, 4]` after clamp and rounding. -/
theorem calculate_deviq_score_ok (section_scores : List (String × SectionEntry))
    (hb : ∀ p ∈ section_scores,
      MIN_SCORE ≤ p.2.score ∧ p.2.score ≤ MAX_SCORE) :
    ∃ d, calculate_deviq_score section_scores = .ok d := by
  rw [calculate_deviq_score]
  by_cases hempty : section_scores = []
  · rw [if_pos hempty]
    exact ⟨_, rfl⟩
  · rw [if_neg hempty]
    have hscne : section_scores.map (fun p => p.2.score) ≠ [] := by
      simpa [← List.length_eq_zero, List.length_eq_zero] using hempty
    rw [if_neg hscne]
    have hwconst : ∀ w ∈ section_scores.map
        (fun p => dictGetD SECTION_WEIGHTS p.1 0.25), w = 0.25 := by
      intro w hw
      obtain ⟨p, _, rfl⟩ := List.mem_map.mp hw
      exact section_weight_const p.1
    have hwsum : (section_scores.map
        (fun p => dictGetD SECTION_WEIGHTS p.1 0.25)).sum =
        ((section_scores.map
          (fun p => dictGetD SECTION_WEIGHTS p.1 0.25)).length : ℚ) * 0.25 :=
      list_sum_const_of_mem _ _ hwconst
    have hwpos : (0 : ℚ) < (section_scores.map
        (fun p => dictGetD SECTION_WEIGHTS p.1 0.25)).sum := by
      rw [hwsum]
      have hlen : (section_scores.map
          (fun p => dictGetD SECTION_WEIGHTS p.1 0.25)).length ≠ 0 := by
        simpa [List.length_eq_zero] using hempty
      have hlt : (0 : ℚ) < ((section_scores.map
          (fun p => dictGetD SECTION_WEIGHTS p.1 0.25)).length : ℚ) :=
        by exact_mod_cast Nat.pos_of_ne_zero hlen
      exact mul_pos hlt (by norm_num)
    have hval := validate_score_inputs_ok
      (section_scores.map (fun p => p.2.score))
      (section_scores.map (fun p => dictGetD SECTION_WEIGHTS p.1 0.25)) hscne
      (by
        intro x hx
        obtain ⟨p, hp, rfl⟩ := List.mem_map.mp hx
        exact hb p hp)
      (by simp)
      (fun w hw => by rw [hwconst w hw]; norm_num)
      (ne_of_gt hwpos)
    obtain ⟨avg, havg, _, _⟩ := calculate_weighted_average_bounds
      (section_scores.map (fun p => p.2.score))
      (section_scores.map (fun p => dictGetD SECTION_WEIGHTS p.1 0.25))
      MIN_SCORE MAX_SCORE hscne (by simp)
      (fun w hw => by rw [hwconst w hw]; norm_num) hwpos
      (by
        intro x hx
        obtain ⟨p, hp, rfl⟩ := List.mem_map.mp hx
        exact (hb p hp).1)
      (by
        intro x hx
        obtain ⟨p, hp, rfl⟩ := List.mem_map.mp hx
        exact (hb p hp).2)
    rw [hval, except_ok_bind, havg, except_ok_bind]
    exact ⟨_, rfl⟩

/-- Scoring an existing assessment never errors. -/
theorem calculate_assessment_score_ok (st : DbState) (assessment_id : ℕ)
    (a : AssessmentRow) (ha : find_assessment st assessment_id = some a) :
    ∃ r, calculate_assessment_score st assessment_id = .ok r := by
  obtain ⟨d, hd⟩ := calculate_deviq_score_ok
    (calculate_section_scores st assessment_id)
    (calculate_section_scores_bounds st assessment_id)
  simp only [calculate_assessment_score, ha, hd, except_ok_bind]
  exact ⟨_, rfl⟩

/-- Generating recommendations for an existing assessment never errors. -/
theorem generate_assessment_recommendations_ok (templates : RecTemplates)
    (st : DbState) (assessment_id max_recommendations : ℕ)
    (include_types : Option (List String)) (a : AssessmentRow)
    (ha : find_assessment st assessment_id = some a) :
    ∃ r, generate_assessment_recommendations templates st assessment_id
        max_recommendations include_types = .ok r := by
  obtain ⟨res, hres⟩ := calculate_assessment_score_ok st assessment_id a ha
  simp only [generate_assessment_recommendations, ha, hres, except_ok_bind]
  exact ⟨_, rfl⟩

/-- The progress dictionary of an existing assessment, spelt out. -/
theorem get_assessment_progress_eq (st : DbState) (assessment_id : ℕ)
    (a : AssessmentRow) (ha : find_assessment st assessment_id = some a) :
    get_assessment_progress st assessment_id =
      .ok
        { assessment_id := assessment_id
          total_questions := st.questions.length
          responded_questions := (st.responses.filter
            (fun r => r.assessment_id = assessment_id)).length
          progress_percentage := round1
            (if st.questions.length > 0 then
              ((st.responses.filter
                  (fun r => r.assessment_id = assessment_id)).length : ℚ) /
                (st.questions.length : ℚ) * 100
            else 0)
          is_complete := (st.responses.filter
              (fun r => r.assessment_id = assessment_id)).length ≥
            st.questions.length
          status := a.status } := by
  simp only [get_assessment_progress, ha]

/-- C2 (amended): for an existing, not-yet-completed assessment,
`complete_assessment` with `force=False` raises the completion-threshold
`AssessmentError` exactly when the number of responses is below the total
question count — i.e. the service gate is 100% completion
(`is_complete`), not the 80% threshold used by the web routes — and when
that gate passes (`force=True`, or full completion) finalization still
raises an `AssessmentError`: the `assessment.metadata` schema mismatch
(`metadata_update_error`) aborts every finalization before its commit, so
the service never finalizes an assessment and the database state is left
unchanged in every case. -/
theorem complete_assessment_threshold (templates : RecTemplates)
    (st : DbState) (assessment_id : ℕ) (force : Bool) (a : AssessmentRow)
    (ha : find_assessment st assessment_id = some a)
    (hstatus : a.status ≠ "completed") :
    (force = false →
      (st.responses.filter
          (fun r => r.assessment_id = assessment_id)).length <
        st.questions.length →
      complete_assessment templates st assessment_id force =
        .error (.assessment ("Assessment incomplete: " ++
          toString (st.responses.filter
            (fun r => r.assessment_id = assessment_id)).length ++ "/" ++
          toString st.questions.length ++ " questions answered"))) ∧
    (force = true ∨
        st.questions.length ≤
          (st.responses.filter
            (fun r => r.assessment_id = assessment_id)).length →
      complete_assessment templates st assessment_id force =
        .error (.assessment ("Assessment completion failed: " ++
          metadata_update_error))) ∧
    complete_assessment_final_state templates st assessment_id force = st := by
  have hprog := get_assessment_progress_eq st assessment_id a ha
  have herr1 : force = false →
      (st.responses.filter
          (fun r => r.assessment_id = assessment_id)).length <
        st.questions.length →
      complete_assessment templates st assessment_id force =
        .error (.assessment ("Assessment incomplete: " ++
          toString (st.responses.filter
            (fun r => r.assessment_id = assessment_id)).length ++ "/" ++
          toString st.questions.length ++ " questions answered")) := by
    intro hforce hlt
    simp only [complete_assessment, ha]
    rw [if_neg hstatus]
    rw [hprog, except_ok_bind]
    rw [if_pos ?_]
    constructor
    · simp [hforce]
    · simp only [decide_eq_true_eq]
      exact not_le.mpr hlt
  have herr2 : force = true ∨
      st.questions.length ≤
        (st.responses.filter
          (fun r => r.assessment_id = assessment_id)).length →
      complete_assessment templates st assessment_id force =
        .error (.assessment ("Assessment completion failed: " ++
          metadata_update_error)) := by
    intro h2
    simp only [complete_assessment, ha]
    rw [if_neg hstatus]
    rw [hprog, except_ok_bind]
    rw [if_neg ?_]
    · obtain ⟨r, hr⟩ := calculate_assessment_score_ok st assessment_id a ha
      obtain ⟨rr, hrr⟩ := generate_assessment_recommendations_ok templates st
        assessment_id 20 none a ha
      simp only [hr, hrr]
    · rintro ⟨hf, hc⟩
      rcases h2 with ht | hle
      · exact hf (by rw [ht])
      · exact hc (by simpa using hle)
  refine ⟨herr1, herr2, ?_⟩
  rw [complete_assessment_final_state]
  cases force with
  | false =>
    by_cases hlt : (st.responses.filter
        (fun r => r.assessment_id = assessment_id)).length <
      st.questions.length
    · rw [herr1 rfl hlt]
    · rw [herr2 (Or.inr (not_lt.mp hlt))]
  | true => rw [herr2 (Or.inl rfl)]

/-- Witness for the amended C2: forcing completion of the 90%-complete
assessment still ends in the wrapped schema-mismatch error and leaves the
state unchanged. -/
theorem complete_assessment_threshold_witness :
    complete_assessment get_default_recommendations demo_state_90 1 true =
      .error (.assessment ("Assessment completion failed: " ++
        metadata_update_error)) ∧
    complete_assessment_final_state get_default_recommendations demo_state_90
      1 true = demo_state_90 :=
  ⟨(complete_assessment_threshold get_default_recommendations demo_state_90 1
      true ⟨1, "in_progress", none, false⟩ rfl (by decide)).2.1 (Or.inl rfl),
   (complete_assessment_threshold get_default_recommendations demo_state_90 1
      true ⟨1, "in_progress", none, false⟩ rfl (by decide)).2.2⟩

/-- Counterexample to C2 as stated: the assessment of `demo_state_90` has 9
of 10 questions answered, a completion percentage of 90% — above the claimed
80% threshold — yet `complete_assessment` without force still raises the
completion error: the service gates on 100%, not 80%. -/
theorem complete_assessment_80_counterexample :
    (demo_state_90.responses.filter (fun r => r.assessment_id = 1)).length =
      9 ∧
    demo_state_90.questions.length = 10 ∧
    (80 : ℚ) ≤ (9 : ℚ) / 10 * 100 ∧
    complete_assessment get_default_recommendations demo_state_90 1 false =
      .error (.assessment "Assessment incomplete: 9/10 questions answered") := by
  refine ⟨by decide, by decide, by norm_num, ?_⟩
  have ha : find_assessment demo_state_90 1 =
      some ⟨1, "in_progress", none, false⟩ := rfl
  have hprog := get_assessment_progress_eq demo_state_90 1
    ⟨1, "in_progress", none, false⟩ ha
  simp only [complete_assessment, ha]
  rw [if_neg (by decide)]
  rw [hprog, except_ok_bind]
  rw [if_pos ?_]
  · rfl
  · exact ⟨by simp, by decide⟩
